import Mathlib

/-!
Verification of the XBee Over-The-Air bootloader transport
(`xbeeboot/avrdude/xbee.c`).

The development is a shallow embedding of the transport: every definition
below is a direct translation of a function (or of a loop body) of
`xbee.c`.  Machine integers (`unsigned char`, `int`, ...) are modelled as
`Nat` / `Int` with explicit `% 256` truncation where the C code relies on
8-bit wrap-around.  The serial device is modelled as an environment value:
a list of inbound bytes (an exhausted list models a read returning a
negative error code, normally a timeout), a list of result codes for
successive `send` calls (exhausted list means success, `0`), and the
accumulated list of frames handed to `send` (the "wire").  `gettimeofday`
is modelled by a time value carried by the environment.

The C functions whose loops are unbounded only ever repeat after
consuming at least one inbound serial byte, so they are written here with
an explicit fuel argument instantiated to `input.length + 1` (or to the
constant retry budget the C source uses); the fuel-exhaustion branches
are unreachable and marked as such.
-/

namespace XBeeBoot

/-- Model of `struct timeval`: seconds and microseconds. -/
structure Timeval where
  tv_sec : Int
  tv_usec : Int
  deriving Repr, DecidableEq

/-- Model of `struct XBeeStaticticsSummary` (name kept from the source,
including its spelling). -/
structure XBeeStaticticsSummary where
  minimum : Timeval
  maximum : Timeval
  sum : Timeval
  samples : Nat
  deriving Repr, DecidableEq

/-- Model of `struct XBeeBootSession`.  The `serialDevice` /
`serialDescriptor` handles are not part of the state: the serial device is
passed explicitly to every operation.  `sequenceStatistics` is the flat
`256 * 4` send-timestamp table, indexed by `group * 256 + sequence`. -/
structure XBeeBootSession where
  xbee_address : List Nat
  directMode : Bool
  outSequence : Nat
  inSequence : Nat
  txSequence : Nat
  transportUnusable : Bool
  xbeeResetPin : Int
  inInIndex : Nat
  inOutIndex : Nat
  inBuffer : List Nat
  sourceRouteHops : Int
  sourceRouteChanged : Bool
  sourceRoute : List Nat
  sequenceStatistics : Nat → Timeval
  groupSummary : List XBeeStaticticsSummary

/-- Send side of the serial device: result codes handed out to successive
`send` calls (an exhausted list keeps answering success `0`), and the
ordered list of frames passed to `send` (the wire). -/
structure XBeeOut where
  sendResults : List Int
  sent : List (List Nat)
  deriving Repr, DecidableEq

/-- The whole serial environment: pending inbound bytes (exhaustion models
a failing/timing-out read), the send side, and the `gettimeofday` clock. -/
structure XBeeSerial where
  input : List Nat
  out : XBeeOut
  time : Timeval

/-- One `serialDevice->send` call: the frame always reaches the device
(it is recorded on the wire) and the call returns the next scripted
result code, `0` (success) once the script is exhausted. -/
def serialSend (o : XBeeOut) (frame : List Nat) : Int × XBeeOut :=
  match o.sendResults with
  | [] => (0, { o with sent := o.sent ++ [frame] })
  | r :: rest => (r, { sendResults := rest, sent := o.sent ++ [frame] })

/-- The sequence-increment idiom `while ((++x & 0xff) == 0);` used for all
three counters: increment an 8-bit counter, skipping the value `0`. -/
def nextSeq (x : Nat) : Nat :=
  let x1 := (x + 1) % 256
  if x1 = 0 then 1 else x1

/-- Byte emission of the `fpput` macro in `sendAPIRequest`: the value is
truncated to `unsigned char`; the bytes `0x7d, 0x7e, 0x11, 0x13` are
emitted as the escape `0x7d` followed by the value XOR `0x20`. -/
def escapeByte (b : Nat) : List Nat :=
  let v := b % 256
  if v = 0x7d ∨ v = 0x7e ∨ v = 0x11 ∨ v = 0x13 then [0x7d, v ^^^ 0x20] else [v]

/-- The running checksum of `fpput`: starting from `0xff`, subtract every
unescaped payload byte in 8-bit arithmetic. -/
def frameChecksum (payload : List Nat) : Nat :=
  payload.foldl (fun c v => (c + 256 - v % 256) % 256) 0xff

/-- The complete escaped frame produced by `sendAPIRequest` for an
unescaped payload: delimiter `0x7e`, escaped length bytes (high byte `0`,
then the 8-bit payload length), escaped payload, escaped checksum. -/
def encodeFrame (payload : List Nat) : List Nat :=
  0x7e :: (escapeByte 0 ++ escapeByte (payload.length % 256)
    ++ (payload.map escapeByte).flatten ++ escapeByte (frameChecksum payload))

/-- The frame reader of `xbeedev_poll` (the `before_frame` /
`start_of_frame` parser), written as one structurally recursive function.
`mode = none` is the `before_frame` state (discard until a `0x7e`
delimiter); `mode = some (acc, escaped, frameSize)` is the
`start_of_frame` parse loop with the unescaped bytes collected so far,
the pending-escape flag, and the current frame-size bound (initially the
two length bytes, re-computed once they have been read).  Returns the
first completed raw frame (length bytes, payload, checksum, all
unescaped) together with the unconsumed input; `none` models the serial
`recv` failure on exhausted input. -/
def xbeeFrameScan (input : List Nat) (mode : Option (List Nat × Bool × Nat)) :
    Option (List Nat × List Nat) :=
  match input with
  | [] => none
  | byte :: rest =>
    match mode with
    | none =>
      if byte = 0x7e then xbeeFrameScan rest (some ([], false, 2))
      else xbeeFrameScan rest none
    | some (acc, escaped, frameSize) =>
      if byte = 0x7e then
        -- a fresh frame delimiter always restarts the frame
        xbeeFrameScan rest (some ([], false, 2))
      else if ¬ escaped ∧ byte = 0x7d then
        xbeeFrameScan rest (some (acc, true, frameSize))
      else
        -- store one unescaped byte: the `frame[index++] = byte` step with
        -- its bounds checks and the frame-size computation at `index == 2`
        let v := if escaped then byte ^^^ 0x20 else byte
        if acc.length ≥ 256 then xbeeFrameScan rest none
        else
          let acc1 := acc ++ [v]
          if acc1.length = 2 then
            let frameSize1 := ((acc1.getD 0 0) <<< 8 ||| acc1.getD 1 0) + 2 + 1
            if frameSize1 ≥ 256 then xbeeFrameScan rest none
            else if acc1.length < frameSize1 then
              xbeeFrameScan rest (some (acc1, false, frameSize1))
            else some (acc1, rest)
          else if acc1.length < frameSize then
            xbeeFrameScan rest (some (acc1, false, frameSize))
          else some (acc1, rest)

/-- `before_frame` entry point of the parser: seek the `0x7e` delimiter,
then parse one frame. -/
def seekFrame (input : List Nat) : Option (List Nat × List Nat) :=
  xbeeFrameScan input none

/-- Single-frame decoder: read one frame from the byte stream and verify
the checksum exactly as `xbeedev_poll` does (`checksum = 1` plus all
frame bytes from index 2 must vanish mod 256); on success return the
unescaped payload (the frame without its length bytes and checksum). -/
def decodeFrame (input : List Nat) : Option (List Nat) :=
  match seekFrame input with
  | none => none
  | some (f, _) =>
    if (1 + (f.drop 2).sum) % 256 = 0 then some ((f.drop 2).dropLast)
    else none

/-- The zeroed statistics summary produced by `xbeeStatsReset`. -/
def xbeeStatsReset : XBeeStaticticsSummary :=
  { minimum := ⟨0, 0⟩, maximum := ⟨0, 0⟩, sum := ⟨0, 0⟩, samples := 0 }

/-- `xbeeStatsAdd`: accumulate one delay sample into a summary (running
sum with microsecond carry, minimum, maximum, sample count). -/
def xbeeStatsAdd (summary : XBeeStaticticsSummary) (sample : Timeval) :
    XBeeStaticticsSummary :=
  let sumUsec := summary.sum.tv_usec + sample.tv_usec
  let sum : Timeval :=
    if sumUsec > 1000000 then ⟨summary.sum.tv_sec + 1 + sample.tv_sec, sumUsec - 1000000⟩
    else ⟨summary.sum.tv_sec + sample.tv_sec, sumUsec⟩
  let minimum :=
    if summary.samples = 0 ∨ summary.minimum.tv_sec > sample.tv_sec ∨
        (summary.minimum.tv_sec = sample.tv_sec ∧ summary.minimum.tv_usec > sample.tv_usec)
    then sample else summary.minimum
  let maximum :=
    if summary.maximum.tv_sec < sample.tv_sec ∨
        (summary.maximum.tv_sec = sample.tv_sec ∧ summary.maximum.tv_usec < sample.tv_usec)
    then sample else summary.maximum
  ⟨minimum, maximum, sum, summary.samples + 1⟩

/-- `xbeeStatsSummarise` computes the average response time by dividing
the accumulated sum by the sample count.  The C code performs this
division unconditionally; with `samples = 0` it is a division by zero
(undefined behaviour), modelled here as `none`.  `Int.tdiv` / `Int.tmod`
match C's truncated division. -/
def xbeeStatsSummarise (summary : XBeeStaticticsSummary) : Option Timeval :=
  if summary.samples = 0 then none
  else
    let samples : Int := summary.samples
    let sec0 := summary.sum.tv_sec.tdiv samples
    let usecs0 : Int := summary.sum.tv_usec + (summary.sum.tv_sec.tmod samples) * 1000000
    let usecs := usecs0.tdiv samples
    some ⟨sec0 + usecs.tdiv 1000000, usecs.tmod 1000000⟩

/-- `XBeeBootSessionInit`.  The argument is the freshly `malloc`ed (hence
arbitrary) session; the C code assigns the listed fields and leaves the
rest (`inBuffer`, `sourceRoute`, the fourth statistics group) untouched.
The statistics loop runs `for (group = 0; group < 3; group++)` and zeroes
only `tv_sec` of each send timestamp. -/
def XBeeBootSessionInit (xbs : XBeeBootSession) : XBeeBootSession :=
  { xbs with
    directMode := true
    xbeeResetPin := 3
    outSequence := 0
    inSequence := 0
    txSequence := 0
    transportUnusable := false
    inInIndex := 0
    inOutIndex := 0
    sourceRouteHops := -1
    sourceRouteChanged := false
    sequenceStatistics := fun i =>
      if i < 3 * 256 then { xbs.sequenceStatistics i with tv_sec := 0 }
      else xbs.sequenceStatistics i
    groupSummary :=
      ((xbs.groupSummary.set 0 xbeeStatsReset).set 1 xbeeStatsReset).set 2 xbeeStatsReset }

/-- `xbeedev_stats_send`: record the send timestamp for `(group, sequence)`. -/
def xbeedev_stats_send (xbs : XBeeBootSession) (group : Nat) (sequence : Nat)
    (sendTime : Timeval) : XBeeBootSession :=
  { xbs with sequenceStatistics :=
      Function.update xbs.sequenceStatistics (group * 256 + sequence % 256) sendTime }

/-- The receive-minus-send delay computation of `xbeedev_stats_receive`. -/
def timevalDelta (receiveTime sendTime : Timeval) : Timeval :=
  let secs := receiveTime.tv_sec - sendTime.tv_sec
  let usecs := receiveTime.tv_usec - sendTime.tv_usec
  if usecs < 0 then ⟨secs - 1, usecs + 1000000⟩ else ⟨secs, usecs⟩

/-- `xbeedev_stats_receive`: compute the delay against the recorded send
time and fold it into the group summary. -/
def xbeedev_stats_receive (xbs : XBeeBootSession) (group : Nat) (sequence : Nat)
    (receiveTime : Timeval) : XBeeBootSession :=
  let sendTime := xbs.sequenceStatistics (group * 256 + sequence % 256)
  let delay := timevalDelta receiveTime sendTime
  let summary := xbeeStatsAdd (xbs.groupSummary.getD group xbeeStatsReset) delay
  { xbs with groupSummary := xbs.groupSummary.set group summary }

/-- `xbeedev_record16Bit`: learn the target's 16-bit network address from
an inbound frame (bytes 8-9 of the 10-byte address). -/
def xbeedev_record16Bit (xbs : XBeeBootSession) (rx16Bit : List Nat) : XBeeBootSession :=
  if rx16Bit ≠ xbs.xbee_address.drop 8 then
    { xbs with xbee_address := xbs.xbee_address.take 8 ++ rx16Bit }
  else xbs

/-- An optional payload field of `sendAPIRequest`: a negative argument
means "absent", otherwise one `unsigned char` byte. -/
def optByte (x : Int) : List Nat := if 0 ≤ x then [x.toNat % 256] else []

/-- The unescaped payload composed by the `fpput` calls of
`sendAPIRequest`: API type, optional receive options, optional frame
sequence, the 10-byte address for every API type other than local AT
(0x08), the optional pre-payload bytes, optional XBeeBoot packet type /
sequence / app type, then the data bytes. -/
def apiFramePayload (xbs : XBeeBootSession) (apiType : Nat)
    (txSequence apiOption prePayload1 prePayload2 packetType sequence appType : Int)
    (data : List Nat) : List Nat :=
  [apiType % 256] ++ optByte apiOption ++ optByte txSequence
    ++ (if apiType ≠ 0x08 then xbs.xbee_address else [])
    ++ optByte prePayload1 ++ optByte prePayload2 ++ optByte packetType
    ++ optByte sequence ++ optByte appType ++ data.map (· % 256)

/-- `sendAPIRequest`.  In the C source the Create Source Route emission
is a recursive call with `apiType = 0x21`; that inner call never takes
the source-route branch again (the branch excludes `0x21`), so the
recursion is unfolded here into straight-line code: when an addressed
frame (neither 0x08 nor 0x21) is requested while the source route has
changed, a 0x21 Create Source Route frame (frame id 0, hop count, hop
vector) is emitted first and the changed flag is cleared. -/
def sendAPIRequest (xbs : XBeeBootSession) (o : XBeeOut) (time : Timeval)
    (apiType : Nat)
    (txSequence apiOption prePayload1 prePayload2 packetType sequence appType : Int)
    (frameGroup : Nat) (data : List Nat) : Int × XBeeBootSession × XBeeOut :=
  let xbs1 := if 0 ≤ txSequence then
      xbeedev_stats_send xbs frameGroup txSequence.toNat time else xbs
  let main := fun (xbs2 : XBeeBootSession) (o2 : XBeeOut) =>
    let xbs3 := if 0 ≤ sequence ∧ packetType = 1 then
        xbeedev_stats_send xbs2 2 sequence.toNat time else xbs2
    let sd := serialSend o2 (encodeFrame (apiFramePayload xbs3 apiType
      txSequence apiOption prePayload1 prePayload2 packetType sequence appType data))
    (sd.1, xbs3, sd.2)
  if apiType ≠ 0x08 ∧ apiType ≠ 0x21 ∧ xbs1.sourceRouteChanged then
    let routeData := xbs1.sourceRoute.take (2 * xbs1.sourceRouteHops.toNat)
    let xbs1' := xbeedev_stats_send xbs1 0 0 time
    let sd := serialSend o (encodeFrame (apiFramePayload xbs1' 0x21
      0 (-1) 0 xbs1.sourceRouteHops (-1) (-1) (-1) routeData))
    if sd.1 ≠ 0 then (sd.1, xbs1', sd.2)
    else main { xbs1' with sourceRouteChanged := false } sd.2
  else main xbs1 o

/-- `sendPacket`: wrap an XBeeBoot message either as a synthetic 0x90
Receive Packet (direct mode) or as a 0x10 Transmit Request (OTA mode),
allocating the next XBee frame sequence (skipping 0). -/
def sendPacket (xbs : XBeeBootSession) (o : XBeeOut) (time : Timeval)
    (packetType : Nat) (sequence : Nat) (appType : Int) (data : List Nat) :
    Int × XBeeBootSession × XBeeOut :=
  let p : Nat × Int × Int :=
    if xbs.directMode then (0x90, -1, -1) else (0x10, 0, 0)
  let xbs1 := { xbs with txSequence := nextSeq xbs.txSequence }
  sendAPIRequest xbs1 o time p.1 xbs1.txSequence (-1) p.2.1 p.2.2
    packetType sequence appType 1 data

/-- The chunk-size computation of `xbeedev_send`: the `XBEEBOOT_MAX_CHUNK
= 54` budget is reduced by `2 * hops + 2` only when the session has a
source route with `hops > 0` and that overhead is below the budget. -/
def maximumChunk (hops : Int) : Nat :=
  if 0 < hops ∧ hops * 2 + 2 < 54 then (54 - (hops * 2 + 2)).toNat else 54

/-- `blockLength = (buflen > maximum_chunk) ? maximum_chunk : buflen`. -/
def blockLength (buflen : Nat) (hops : Int) : Nat := min buflen (maximumChunk hops)

/-- Result of the per-byte delivery loop: normal completion, or ring
overrun (which latches `transportUnusable` and aborts the poll). -/
inductive DeliverResult where
  | ok (xbs : XBeeBootSession) (buf : Option (List Nat × Nat))
  | overrun (xbs : XBeeBootSession) (buf : Option (List Nat × Nat))

/-- The per-byte delivery loop of the REQUEST/FRAME_REPLY branch of
`xbeedev_poll`: bytes go to the caller's receive buffer while it has
room, otherwise into the input ring; advancing the write index onto the
read index marks the transport unusable and aborts with `-1`. -/
def deliverBytes : XBeeBootSession → Option (List Nat × Nat) → List Nat → DeliverResult
  | xbs, buf, [] => .ok xbs buf
  | xbs, buf, d :: rest =>
    match buf with
    | some (acc, cap + 1) => deliverBytes xbs (some (acc ++ [d], cap)) rest
    | _ =>
      let xbs1 := { xbs with
        inBuffer := xbs.inBuffer.set xbs.inInIndex d,
        inInIndex := if xbs.inInIndex + 1 = 256 then 0 else xbs.inInIndex + 1 }
      if xbs1.inInIndex = xbs1.inOutIndex then
        .overrun { xbs1 with transportUnusable := true } buf
      else deliverBytes xbs1 buf rest

/-- Result of one dispatch iteration of `xbeedev_poll`: `ret` is a
`return` from the C loop, `cont` falls through to the next frame. -/
inductive PollStepResult where
  | ret (rc : Int) (xbs : XBeeBootSession) (o : XBeeOut) (buf : Option (List Nat × Nat))
  | cont (xbs : XBeeBootSession) (o : XBeeOut) (buf : Option (List Nat × Nat))

/-- The shared 0x10/0x90 data handling of `xbeedev_poll` (XBeeBoot ACK
and REQUEST/FRAME_REPLY processing), after the per-type header length has
been established and the bounds check passed. -/
def xbeeDataDispatch (xbs : XBeeBootSession) (o : XBeeOut) (time : Timeval)
    (buf : Option (List Nat × Nat)) (waitForAck : Int)
    (f : List Nat) (header : Nat) : PollStepResult :=
  let dataLength := f.length - header - 1
  let dataStart := (f.drop header).take dataLength
  if dataLength ≥ 2 then
    let protocolType := dataStart.getD 0 0
    let sequence := dataStart.getD 1 0
    if protocolType = 0 then
      -- XBEEBOOT_PACKET_TYPE_ACK
      let xbs1 := xbeedev_stats_receive xbs 2 sequence time
      if 0 ≤ waitForAck ∧ waitForAck = (sequence : Int) then .ret 0 xbs1 o buf
      else .cont xbs1 o buf
    else if protocolType = 1 ∧ dataLength ≥ 4 ∧ dataStart.getD 2 0 = 24 then
      -- XBEEBOOT_PACKET_TYPE_REQUEST carrying FRAME_REPLY (appType 24)
      let xbs1 := xbeedev_stats_receive xbs 3 sequence time
      let nextSequence := nextSeq xbs1.inSequence
      if sequence = nextSequence then
        let xbs2 := { xbs1 with inSequence := nextSequence }
        match deliverBytes xbs2 buf (dataStart.drop 3) with
        | .overrun xbs3 buf3 => .ret (-1) xbs3 o buf3
        | .ok xbs3 buf3 =>
          let ack := sendPacket xbs3 o time 0 sequence (-1) []
          match buf3 with
          | some (_, 0) => .ret 0 ack.2.1 ack.2.2 buf3
          | _ => .cont (xbeedev_stats_send ack.2.1 3 (nextSeq nextSequence) time)
              ack.2.2 buf3
      else .cont xbs1 o buf
    else .cont xbs o buf
  else .cont xbs o buf

/-- One iteration of the `for (;;)` dispatch loop of `xbeedev_poll`,
applied to one raw frame `f` (length bytes, payload, checksum) returned
by the frame reader: verify the checksum, then dispatch on the API type
(0x97 remote AT response, 0x88 local AT response, 0x8b transmit status,
0xa1 route record indicator, 0x10/0x90 XBeeBoot data). -/
def pollStep (xbs : XBeeBootSession) (o : XBeeOut) (time : Timeval)
    (buf : Option (List Nat × Nat)) (waitForAck waitForSequence : Int)
    (f : List Nat) : PollStepResult :=
  if (1 + (f.drop 2).sum) % 256 ≠ 0 then .cont xbs o buf
  else
    let frameSize := f.length
    let frameType := f.getD 2 0
    if frameType = 0x97 ∧ frameSize > 16 then
      let txSequence := f.getD 3 0
      let resultCode := f.getD 16 0
      let xbs1 := xbeedev_stats_receive xbs 1 txSequence time
      if 0 ≤ waitForSequence ∧ waitForSequence = (txSequence : Int) then
        .ret (-512 + resultCode) xbs1 o buf
      else .cont xbs1 o buf
    else if frameType = 0x88 ∧ frameSize > 6 then
      let txSequence := f.getD 3 0
      let xbs1 := xbeedev_stats_receive xbs 0 txSequence time
      if 0 ≤ waitForSequence ∧ waitForSequence = (txSequence : Int) then .ret 0 xbs1 o buf
      else .cont xbs1 o buf
    else if frameType = 0x8b ∧ frameSize > 7 then
      .cont (xbeedev_stats_receive xbs 1 (f.getD 3 0) time) o buf
    else if frameType = 0xa1 ∧ frameSize ≥ 16 then
      if (f.drop 3).take 8 ≠ xbs.xbee_address.take 8 then .cont xbs o buf
      else
        let xbs1 := xbeedev_record16Bit xbs ((f.drop 11).take 2)
        let hops := f.getD 14 0
        if frameSize < 13 + 2 + hops * 2 + 1 then .cont xbs1 o buf
        else if hops ≤ 40 ∧
            ((xbs1.sourceRouteHops ≠ (hops : Int)) ∨
              (f.drop 15).take (hops * 2) ≠ xbs1.sourceRoute.take (hops * 2)) then
          .cont { xbs1 with
            sourceRoute := (f.drop 15).take (hops * 2) ++ xbs1.sourceRoute.drop (hops * 2),
            sourceRouteHops := (hops : Int),
            sourceRouteChanged := true } o buf
        else .cont xbs1 o buf
    else if frameType = 0x10 ∨ frameType = 0x90 then
      if frameType = 0x10 then
        -- direct-mode data frame, header 2+1+1+8+2+1+1
        if frameSize ≤ 16 + 1 then .cont xbs o buf
        else xbeeDataDispatch xbs o time buf waitForAck f 16
      else
        -- remote reply frame, header 2+1+8+2+1, from the target only
        if frameSize ≤ 14 + 1 then .cont xbs o buf
        else if (f.drop 3).take 8 ≠ xbs.xbee_address.take 8 then .cont xbs o buf
        else xbeeDataDispatch (xbeedev_record16Bit xbs ((f.drop 11).take 2))
          o time buf waitForAck f 14
    else .cont xbs o buf

/-- Result of `xbeedev_poll`: return code, session, serial environment,
and the caller's receive-buffer state. -/
structure PollResult where
  rc : Int
  xbs : XBeeBootSession
  w : XBeeSerial
  buf : Option (List Nat × Nat)

/-- The `for (;;)` loop of `xbeedev_poll`: read one frame (consuming
serial input), dispatch it, repeat until a branch returns or the serial
read fails.  Every iteration consumes at least one inbound byte, so the
fuel `input.length + 1` used by `xbeedev_poll` never runs out; the
fuel-exhaustion branch is unreachable. -/
def pollGo : Nat → XBeeBootSession → XBeeSerial → Option (List Nat × Nat) →
    Int → Int → PollResult
  | 0, xbs, w, buf, _, _ => ⟨-1, xbs, w, buf⟩
  | fuel + 1, xbs, w, buf, waitForAck, waitForSequence =>
    match seekFrame w.input with
    | none => ⟨-1, xbs, { w with input := [] }, buf⟩
    | some (f, rest) =>
      match pollStep xbs w.out w.time buf waitForAck waitForSequence f with
      | .ret rc xbs1 o1 buf1 => ⟨rc, xbs1, { w with input := rest, out := o1 }, buf1⟩
      | .cont xbs1 o1 buf1 =>
        pollGo fuel xbs1 { w with input := rest, out := o1 } buf1 waitForAck waitForSequence

/-- `xbeedev_poll`. -/
def xbeedev_poll (xbs : XBeeBootSession) (w : XBeeSerial)
    (buf : Option (List Nat × Nat)) (waitForAck waitForSequence : Int) : PollResult :=
  pollGo (w.input.length + 1) xbs w buf waitForAck waitForSequence

/-- Result of one iteration of the retry loop of `xbeedev_send`:
`fatal` is a mid-send failure (flag latched, error returned), `acked` a
confirmed chunk, `timeout` a poll that did not see the ACK. -/
inductive SendAttemptResult where
  | fatal (rc : Int) (xbs : XBeeBootSession) (w : XBeeSerial)
  | acked (xbs : XBeeBootSession) (w : XBeeSerial)
  | timeout (pollRc : Int) (xbs : XBeeBootSession) (w : XBeeSerial)

/-- One iteration of the retry loop of `xbeedev_send`: send the REQUEST
(FIRMWARE_DELIVER, appType 23), poll for its ACK, and on a timeout resend
the most recent inbound ACK if any inbound sequence has been seen. -/
def sendAttempt (xbs : XBeeBootSession) (w : XBeeSerial) (sequence : Nat)
    (chunk : List Nat) : SendAttemptResult :=
  let s := sendPacket xbs w.out w.time 1 sequence 23 chunk
  let w1 := { w with out := s.2.2 }
  if s.1 < 0 then .fatal s.1 { s.2.1 with transportUnusable := true } w1
  else
    let p := xbeedev_poll s.2.1 w1 none (sequence : Int) (-1)
    if p.rc = 0 then .acked p.xbs p.w
    else if p.xbs.inSequence ≠ 0 then
      let a := sendPacket p.xbs p.w.out p.w.time 0 p.xbs.inSequence (-1) []
      if a.1 < 0 then
        .fatal a.1 { a.2.1 with transportUnusable := true } { p.w with out := a.2.2 }
      else .timeout p.rc a.2.1 { p.w with out := a.2.2 }
    else .timeout p.rc p.xbs p.w

/-- The retry loop of `xbeedev_send`: up to `XBEE_MAX_RETRIES = 16`
attempts; the `Int` result carries the final `pollRc` (initially 0), the
`Bool` whether the chunk was acknowledged. -/
def sendChunkRetries : Nat → Int → XBeeBootSession → XBeeSerial → Nat → List Nat →
    Int × Bool × XBeeBootSession × XBeeSerial
  | 0, pollRc, xbs, w, _, _ => (pollRc, false, xbs, w)
  | n + 1, _, xbs, w, sequence, chunk =>
    match sendAttempt xbs w sequence chunk with
    | .fatal rc xbs1 w1 => (rc, false, xbs1, w1)
    | .acked xbs1 w1 => (0, true, xbs1, w1)
    | .timeout pollRc xbs1 w1 => sendChunkRetries n pollRc xbs1 w1 sequence chunk

/-- The `while (buflen > 0)` loop of `xbeedev_send`.  Every iteration that
continues consumes at least one byte of `buf`, so the fuel `buf.length`
used by `xbeedev_send` suffices; the fuel-exhaustion branch is
unreachable.  The final branch (retries exhausted with a non-negative
poll result) is likewise unreachable, since a retry loop that never saw
the ACK ends with a negative poll result. -/
def xbeedev_send_loop : Nat → XBeeBootSession → XBeeSerial → List Nat →
    Int × XBeeBootSession × XBeeSerial
  | _, xbs, w, [] => (0, xbs, w)
  | 0, xbs, w, _ => (-1, { xbs with transportUnusable := true }, w)
  | fuel + 1, xbs, w, buf =>
    let sequence := nextSeq xbs.outSequence
    let xbs1 := { xbs with outSequence := sequence }
    -- record the potential receive trigger (stats group RECEIVE)
    let xbs2 := xbeedev_stats_send xbs1 3 (nextSeq xbs1.inSequence) w.time
    let blockLen := blockLength buf.length xbs2.sourceRouteHops
    let r := sendChunkRetries 16 0 xbs2 w sequence (buf.take blockLen)
    if r.2.1 then xbeedev_send_loop fuel r.2.2.1 r.2.2.2 (buf.drop blockLen)
    else if r.1 < 0 then (r.1, { r.2.2.1 with transportUnusable := true }, r.2.2.2)
    else (r.1, r.2.2.1, r.2.2.2)

/-- `xbeedev_send`. -/
def xbeedev_send (xbs : XBeeBootSession) (w : XBeeSerial) (buf : List Nat) :
    Int × XBeeBootSession × XBeeSerial :=
  if xbs.transportUnusable then (-1, xbs, w)
  else xbeedev_send_loop buf.length xbs w buf

/-- The de-buffering loop at the head of `xbeedev_recv`: drain the input
ring into the caller's buffer.  Fuel 256 (the ring size) covers every
reachable ring configuration.  Returns the session, the delivered bytes,
the remaining requested length and whether the request was fully
satisfied.  (The C loop decrements a `size_t`; for the always-positive
request sizes its callers use, the `Nat` subtraction here is exact.) -/
def recvDebuffer : Nat → XBeeBootSession → List Nat → Nat →
    XBeeBootSession × List Nat × Nat × Bool
  | 0, xbs, acc, buflen => (xbs, acc, buflen, false)
  | fuel + 1, xbs, acc, buflen =>
    if xbs.inInIndex ≠ xbs.inOutIndex then
      let d := xbs.inBuffer.getD xbs.inOutIndex 0
      let xbs1 := { xbs with
        inOutIndex := if xbs.inOutIndex + 1 = 256 then 0 else xbs.inOutIndex + 1 }
      if buflen - 1 = 0 then (xbs1, acc ++ [d], 0, true)
      else recvDebuffer fuel xbs1 (acc ++ [d]) (buflen - 1)
    else (xbs, acc, buflen, false)

/-- The retry loop of `xbeedev_recv` (16 attempts): poll with the
caller's buffer; fail fast if the poll latched `transportUnusable`; on a
timeout resend the most recent inbound ACK (result ignored). -/
def recvRetry : Nat → XBeeBootSession → XBeeSerial → List Nat → Nat →
    Int × XBeeBootSession × XBeeSerial × List Nat
  | 0, xbs, w, acc, _ => (-1, xbs, w, acc)
  | n + 1, xbs, w, acc, buflen =>
    let p := xbeedev_poll xbs w (some (acc, buflen)) (-1) (-1)
    let st := p.buf.getD (acc, buflen)
    if p.rc = 0 then (0, p.xbs, p.w, st.1)
    else if p.xbs.transportUnusable then (-1, p.xbs, p.w, st.1)
    else if p.xbs.inSequence ≠ 0 then
      let a := sendPacket p.xbs p.w.out p.w.time 0 p.xbs.inSequence (-1) []
      recvRetry n a.2.1 { p.w with out := a.2.2 } st.1 st.2
    else recvRetry n p.xbs p.w st.1 st.2

/-- `xbeedev_recv`: first drain the input ring, then (unless the
transport is unusable) poll for inbound REQUEST data.  The delivered
bytes are returned as a list. -/
def xbeedev_recv (xbs : XBeeBootSession) (w : XBeeSerial) (buflen : Nat) :
    Int × XBeeBootSession × XBeeSerial × List Nat :=
  let d := recvDebuffer 256 xbs [] buflen
  if d.2.2.2 then (0, d.1, w, d.2.1)
  else if d.1.transportUnusable then (-1, d.1, w, d.2.1)
  else
    let xbs2 := xbeedev_stats_send d.1 3 (nextSeq d.1.inSequence) w.time
    recvRetry 16 xbs2 w d.2.1 d.2.2.1

/-- The `do { ... } while` loop of `xbeedev_drain`: reset the ring
indices, poll, repeat while the poll reports success.  A successful poll
consumes input, so the fuel `input.length + 1` used by `xbeedev_drain`
never runs out; the fuel-exhaustion branch is unreachable. -/
def drainLoop : Nat → XBeeBootSession → XBeeSerial → Int × XBeeBootSession × XBeeSerial
  | 0, xbs, w => (0, xbs, w)
  | n + 1, xbs, w =>
    let xbs1 := { xbs with inOutIndex := 0, inInIndex := 0 }
    let p := xbeedev_poll xbs1 w none (-1) (-1)
    if p.rc = 0 then drainLoop n p.xbs p.w else (0, p.xbs, p.w)

/-- `xbeedev_drain`. -/
def xbeedev_drain (xbs : XBeeBootSession) (w : XBeeSerial) :
    Int × XBeeBootSession × XBeeSerial :=
  if xbs.transportUnusable then (-1, xbs, w)
  else drainLoop (w.input.length + 1) xbs w

/-- `XBEE_AT_RETURN_CODE`: decode a remote AT result (`-512 + status`,
hence in `[-512, -256]`) back into the status, `-1` otherwise. -/
def XBEE_AT_RETURN_CODE (x : Int) : Int :=
  if -512 ≤ x ∧ x ≤ -256 then x + 512 else -1

/-- The retry loop of `localAT` (5 polls awaiting the 0x88 response). -/
def localATRetry : Nat → XBeeBootSession → XBeeSerial → Nat →
    Int × XBeeBootSession × XBeeSerial
  | 0, xbs, w, _ => (-1, xbs, w)
  | n + 1, xbs, w, sequence =>
    let p := xbeedev_poll xbs w none (-1) (sequence : Int)
    if p.rc = 0 then (0, p.xbs, p.w)
    else localATRetry n p.xbs p.w sequence

/-- `localAT`: local AT command (API id 0x08); a no-op success in direct
mode. -/
def localAT (xbs : XBeeBootSession) (w : XBeeSerial) (at1 at2 : Nat) (value : Int) :
    Int × XBeeBootSession × XBeeSerial :=
  if xbs.directMode then (0, xbs, w)
  else
    let xbs1 := { xbs with txSequence := nextSeq xbs.txSequence }
    let data := [at1, at2] ++ (if 0 ≤ value then [value.toNat] else [])
    let s := sendAPIRequest xbs1 w.out w.time 0x08 (xbs1.txSequence : Int)
      (-1) (-1) (-1) (-1) (-1) (-1) 0 data
    localATRetry 5 s.2.1 { w with out := s.2.2 } xbs1.txSequence

/-- The retry loop of `sendAT` (30 polls awaiting the 0x97 response). -/
def sendATRetry : Nat → XBeeBootSession → XBeeSerial → Nat →
    Int × XBeeBootSession × XBeeSerial
  | 0, xbs, w, _ => (-1, xbs, w)
  | n + 1, xbs, w, sequence =>
    let p := xbeedev_poll xbs w none (-1) (sequence : Int)
    if XBEE_AT_RETURN_CODE p.rc = 0 then (0, p.xbs, p.w)
    else if p.rc ≠ -1 then (p.rc, p.xbs, p.w)
    else sendATRetry n p.xbs p.w sequence

/-- `sendAT`: remote AT command (API id 0x17, Apply Changes options
0x02); a no-op success in direct mode. -/
def sendAT (xbs : XBeeBootSession) (w : XBeeSerial) (at1 at2 : Nat) (value : Int) :
    Int × XBeeBootSession × XBeeSerial :=
  if xbs.directMode then (0, xbs, w)
  else
    let xbs1 := { xbs with txSequence := nextSeq xbs.txSequence }
    let data := [at1, at2] ++ (if 0 ≤ value then [value.toNat] else [])
    let s := sendAPIRequest xbs1 w.out w.time 0x17 (xbs1.txSequence : Int)
      (-1) (-1) (-1) (-1) 0x02 (-1) 1 data
    sendATRetry 30 s.2.1 { w with out := s.2.2 } xbs1.txSequence

/-- `xbeedev_set_dtr_rts`.  In direct mode the call passes through to
the serial device (modelled as success).  In OTA mode it issues the
Remote AT command `D<resetPin>` (command bytes `0x44` and `0x30 + pin`)
with parameter 5 when `is_on` and 4 otherwise. -/
def xbeedev_set_dtr_rts (xbs : XBeeBootSession) (w : XBeeSerial) (is_on : Bool) :
    Int × XBeeBootSession × XBeeSerial :=
  if xbs.directMode then (0, xbs, w)
  else
    let r := sendAT xbs w 0x44 (48 + xbs.xbeeResetPin).toNat (if is_on then 5 else 4)
    if r.1 < 0 then
      if 0 ≤ XBEE_AT_RETURN_CODE r.1 then (-1, r.2.1, r.2.2)
      else (r.1, r.2.1, r.2.2)
    else (0, r.2.1, r.2.2)

/-- The `xbeeresetpin=<n>` validation of `xbee_parseextparms`: the parsed
integer is rejected iff `resetpin <= 0 || resetpin > 7`; otherwise it is
stored as the reset pin. -/
def xbee_parseResetPin (resetpin : Int) : Option Int :=
  if resetpin ≤ 0 ∨ 7 < resetpin then none else some resetpin

/-- The statistics emission of `xbee_close`: summarise the four groups in
order (FRAME_LOCAL, FRAME_REMOTE, TRANSMIT, RECEIVE). -/
def xbee_close_summaries (xbs : XBeeBootSession) : List (Option Timeval) :=
  [xbeeStatsSummarise (xbs.groupSummary.getD 0 xbeeStatsReset),
   xbeeStatsSummarise (xbs.groupSummary.getD 1 xbeeStatsReset),
   xbeeStatsSummarise (xbs.groupSummary.getD 2 xbeeStatsReset),
   xbeeStatsSummarise (xbs.groupSummary.getD 3 xbeeStatsReset)]

/-- Accessor: the session component of a `DeliverResult`. -/
def DeliverResult.xbs : DeliverResult → XBeeBootSession
  | .ok x _ => x
  | .overrun x _ => x

/-- Accessor: the session component of a `PollStepResult`. -/
def PollStepResult.xbs : PollStepResult → XBeeBootSession
  | .ret _ x _ _ => x
  | .cont x _ _ => x

/-- Accessor: the send-side component of a `PollStepResult`. -/
def PollStepResult.out : PollStepResult → XBeeOut
  | .ret _ _ o _ => o
  | .cont _ o _ => o

/-- Accessor: the session component of a `SendAttemptResult`. -/
def SendAttemptResult.xbs : SendAttemptResult → XBeeBootSession
  | .fatal _ x _ => x
  | .acked x _ => x
  | .timeout _ x _ => x

/-! ### Concrete test fixtures -/

/-- A freshly opened direct-mode session as `xbeedev_open "@tty"` produces
it: zeroed 64-bit address, unknown (`ff fe`) 16-bit address, all counters
zero, empty ring, no source route, clean statistics. -/
def baseSession : XBeeBootSession :=
  { xbee_address := [0, 0, 0, 0, 0, 0, 0, 0, 0xff, 0xfe]
    directMode := true
    outSequence := 0
    inSequence := 0
    txSequence := 0
    transportUnusable := false
    xbeeResetPin := 3
    inInIndex := 0
    inOutIndex := 0
    inBuffer := List.replicate 256 0
    sourceRouteHops := -1
    sourceRouteChanged := false
    sourceRoute := List.replicate 80 0
    sequenceStatistics := fun _ => ⟨0, 0⟩
    groupSummary := List.replicate 4 xbeeStatsReset }

/-- The same session in OTA (non-direct) mode. -/
def otaSession : XBeeBootSession := { baseSession with directMode := false }

/-- An OTA session whose cached source route has 26 intermediate hops. -/
def hopSession : XBeeBootSession :=
  { baseSession with directMode := false, sourceRouteHops := 26 }

/-- A session on which the transport-unusable flag has latched. -/
def unusableSession : XBeeBootSession := { baseSession with transportUnusable := true }

/-- A freshly `malloc`ed session before `XBeeBootSessionInit`: every
statistics slot holds garbage (timestamps `(9, 9)`, summaries with 7
samples). -/
def prestatsSession : XBeeBootSession :=
  { baseSession with
    sequenceStatistics := fun _ => ⟨9, 9⟩
    groupSummary := List.replicate 4
      { minimum := ⟨9, 9⟩, maximum := ⟨9, 9⟩, sum := ⟨9, 9⟩, samples := 7 } }

/-- An OTA session holding a cached one-hop source route that has changed
since it was last transmitted. -/
def routeSession : XBeeBootSession :=
  { otaSession with
    sourceRouteChanged := true
    sourceRouteHops := 1
    sourceRoute := [0x11, 0x22] ++ List.replicate 78 0 }

/-- A serial environment with nothing to read and an always-succeeding
send side. -/
def emptySerial : XBeeSerial := { input := [], out := ⟨[], []⟩, time := ⟨0, 0⟩ }

/-- An inbound XBeeBoot ACK for sequence 1 as the direct-mode peer sends
it: a 0x10 Transmit Request frame carrying packet type 0, sequence 1. -/
def directAck1 : List Nat :=
  encodeFrame ([0x10, 1] ++ [0, 0, 0, 0, 0, 0, 0, 0, 0xff, 0xfe] ++ [0, 0] ++ [0, 1])

/-- An inbound XBeeBoot ACK for sequence 1 as the OTA target sends it: a
0x90 Receive Packet frame from the 64-bit address `0...0` carrying packet
type 0, sequence 1. -/
def otaAck1 : List Nat :=
  encodeFrame ([0x90] ++ [0, 0, 0, 0, 0, 0, 0, 0] ++ [0xff, 0xfe] ++ [0] ++ [0, 1])

/-! ### Theorems -/

theorem escapeByte_not_7e {x b : Nat} (hb : b ∈ escapeByte x) : b ≠ 0x7e := by
  intro hEq
  subst hEq
  simp only [escapeByte] at hb
  split at hb
  · rename_i h
    simp only [List.mem_cons, List.not_mem_nil, or_false] at hb
    rcases hb with hb | hb
    · omega
    · rcases h with h | h | h | h <;> rw [h] at hb <;> exact absurd hb (by decide)
  · rename_i h
    simp only [List.mem_cons, List.not_mem_nil, or_false] at hb
    exact h (Or.inr (Or.inl hb.symm))

theorem foldl_checksum (l : List Nat) : ∀ (c : Nat), c < 256 → (∀ b ∈ l, b < 256) →
    (List.foldl (fun c v => (c + 256 - v % 256) % 256) c l + l.sum) % 256 = c := by
  induction l with
  | nil => intro c hc _; simpa using Nat.mod_eq_of_lt hc
  | cons v t ih =>
    intro c hc hl
    have hv : v < 256 := hl v (List.mem_cons_self _ _)
    have hc' : (c + 256 - v % 256) % 256 < 256 := Nat.mod_lt _ (by omega)
    have iht := ih ((c + 256 - v % 256) % 256) hc' (fun b hb => hl b (List.mem_cons_of_mem _ hb))
    simp only [List.foldl_cons, List.sum_cons]
    omega

theorem frameChecksum_lt (payload : List Nat) : frameChecksum payload < 256 := by
  unfold frameChecksum
  induction payload using List.reverseRecOn with
  | nil => decide
  | append_singleton t v ih => rw [List.foldl_append]; exact Nat.mod_lt _ (by omega)

theorem frameChecksum_valid (payload : List Nat) (h : ∀ b ∈ payload, b < 256) :
    (1 + (payload.sum + frameChecksum payload)) % 256 = 0 := by
  have := foldl_checksum payload 0xff (by omega) h
  unfold frameChecksum
  omega

theorem xor20_cancel (v : Nat) : v ^^^ 0x20 ^^^ 0x20 = v := by
  rw [Nat.xor_assoc, Nat.xor_self, Nat.xor_zero]

theorem scan_payload : ∀ (bs acc : List Nat) (fs : Nat) (tail : List Nat),
    (∀ b ∈ bs, b < 256) → 2 ≤ acc.length → acc.length + bs.length = fs → fs < 256 → bs ≠ [] →
    xbeeFrameScan ((bs.map escapeByte).flatten ++ tail) (some (acc, false, fs)) =
      some (acc ++ bs, tail) := by
  intro bs
  induction bs with
  | nil => intro acc fs tail _ _ _ _ hne; exact absurd rfl hne
  | cons v t ih =>
    intro acc fs tail hlt hacc hfs hfs256 _
    have hv : v < 256 := hlt v (List.mem_cons_self _ _)
    have hvmod : v % 256 = v := Nat.mod_eq_of_lt hv
    have hfs' : acc.length + t.length + 1 = fs := by
      simp only [List.length_cons] at hfs; omega
    have hlen2 : acc.length + 1 ≠ 2 := by omega
    have hbound : ¬ (acc.length ≥ 256) := by omega
    by_cases ht : t = []
    · -- last byte of the frame: the scan completes
      subst ht
      simp only [List.length_nil] at hfs'
      have hnlt : ¬ (acc.length + 1 < fs) := by omega
      by_cases hsp : v = 0x7d ∨ v = 0x7e ∨ v = 0x11 ∨ v = 0x13
      · have hesc : escapeByte v = [0x7d, v ^^^ 0x20] := by
          unfold escapeByte; rw [hvmod, if_pos hsp]
        have hxne : ¬ (v ^^^ 0x20 = 0x7e) := by
          rcases hsp with h | h | h | h <;> subst h <;> decide
        rw [List.map_cons, List.flatten_cons, hesc]
        show xbeeFrameScan (0x7d :: (v ^^^ 0x20) :: ((List.map escapeByte []).flatten ++ tail))
            (some (acc, false, fs)) = _
        rw [xbeeFrameScan]
        norm_num
        rw [xbeeFrameScan]
        norm_num [hxne, xor20_cancel, hbound, hlen2, hnlt]
      · have hesc : escapeByte v = [v] := by
          unfold escapeByte; rw [hvmod, if_neg hsp]
        have hne7e : ¬ (v = 0x7e) := fun h => hsp (Or.inr (Or.inl h))
        have hne7d : ¬ (v = 0x7d) := fun h => hsp (Or.inl h)
        rw [List.map_cons, List.flatten_cons, hesc]
        show xbeeFrameScan (v :: ((List.map escapeByte []).flatten ++ tail))
            (some (acc, false, fs)) = _
        rw [xbeeFrameScan]
        norm_num [hne7e, hne7d, hbound, hlen2, hnlt]
    · -- more payload follows: one step, then the induction hypothesis
      have hlt2 : acc.length + 1 < fs := by
        have : 0 < t.length := List.length_pos.mpr ht
        omega
      have hmem : ∀ b ∈ t, b < 256 := fun b hb => hlt b (List.mem_cons_of_mem _ hb)
      have hih := ih (acc ++ [v]) fs tail hmem (by simp; omega) (by simp; omega) hfs256 ht
      by_cases hsp : v = 0x7d ∨ v = 0x7e ∨ v = 0x11 ∨ v = 0x13
      · have hesc : escapeByte v = [0x7d, v ^^^ 0x20] := by
          unfold escapeByte; rw [hvmod, if_pos hsp]
        have hxne : ¬ (v ^^^ 0x20 = 0x7e) := by
          rcases hsp with h | h | h | h <;> subst h <;> decide
        rw [List.map_cons, List.flatten_cons, hesc]
        show xbeeFrameScan (0x7d :: (v ^^^ 0x20) :: ((t.map escapeByte).flatten ++ tail))
            (some (acc, false, fs)) = _
        rw [xbeeFrameScan]
        norm_num
        rw [xbeeFrameScan]
        norm_num [hxne, xor20_cancel, hbound, hlen2, hlt2]
        rw [hih]
        simp
      · have hesc : escapeByte v = [v] := by
          unfold escapeByte; rw [hvmod, if_neg hsp]
        have hne7e : ¬ (v = 0x7e) := fun h => hsp (Or.inr (Or.inl h))
        have hne7d : ¬ (v = 0x7d) := fun h => hsp (Or.inl h)
        rw [List.map_cons, List.flatten_cons, hesc]
        show xbeeFrameScan (v :: ((t.map escapeByte).flatten ++ tail))
            (some (acc, false, fs)) = _
        rw [xbeeFrameScan]
        norm_num [hne7e, hne7d, hbound, hlen2, hlt2]
        rw [hih]
        simp

theorem seekFrame_encode (B : List Nat) (hlen : B.length ≤ 252) (hB : ∀ b ∈ B, b < 256) :
    seekFrame (encodeFrame B) =
      some ([0, B.length] ++ (B ++ [frameChecksum B]), []) := by
  have hlenmod : B.length % 256 = B.length := Nat.mod_eq_of_lt (by omega)
  unfold seekFrame encodeFrame
  rw [hlenmod]
  rw [xbeeFrameScan]
  norm_num
  rw [show escapeByte 0 = [0] by decide]
  rw [List.cons_append]
  rw [xbeeFrameScan]
  norm_num
  have hpay := scan_payload (B ++ [frameChecksum B]) [0, B.length] (B.length + 3)
    [] (by
      intro b hb
      rcases List.mem_append.mp hb with h | h
      · exact hB b h
      · simp only [List.mem_singleton] at h; subst h; exact frameChecksum_lt B)
    (by simp) (by simp; omega) (by omega) (by simp)
  rw [List.map_append, List.flatten_append] at hpay
  simp only [List.map_singleton, List.flatten_cons, List.flatten_nil, List.append_nil] at hpay
  -- the two length bytes have been consumed; the remaining stream is the
  -- escaped payload followed by the escaped checksum
  by_cases hsp : B.length = 0x7d ∨ B.length = 0x7e ∨ B.length = 0x11 ∨ B.length = 0x13
  · have hesc : escapeByte B.length = [0x7d, B.length ^^^ 0x20] := by
      unfold escapeByte
      rw [hlenmod, if_pos hsp]
    have hxne : ¬ (B.length ^^^ 0x20 = 0x7e) := by
      rcases hsp with h | h | h | h <;> rw [h] <;> decide
    rw [hesc]
    rw [List.cons_append, List.cons_append]
    rw [xbeeFrameScan]
    norm_num
    rw [xbeeFrameScan]
    norm_num [hxne, xor20_cancel]
    rw [if_neg (by omega : ¬ (256 ≤ B.length + 2 + 1))]
    simpa using hpay
  · have hesc : escapeByte B.length = [B.length] := by
      unfold escapeByte
      rw [hlenmod, if_neg hsp]
    have hne7e : ¬ (B.length = 0x7e) := fun h => hsp (Or.inr (Or.inl h))
    have hne7d : ¬ (B.length = 0x7d) := fun h => hsp (Or.inl h)
    rw [hesc]
    rw [List.cons_append]
    rw [xbeeFrameScan]
    norm_num [hne7e, hne7d]
    rw [if_neg (by omega : ¬ (256 ≤ B.length + 2 + 1))]
    simpa using hpay


/-- Claim C4 (amended): for every byte vector `B` of length at most 252,
decoding the frame produced by the frame encoder yields `B` again, and the
encoded byte stream contains the delimiter `0x7e` exactly once, at
position 0.  (The claim stated the bound 253; a 253-byte payload makes
the declared frame size `253 + 3 = 256` reach the receiver's 256-byte
frame buffer, so `xbeedev_poll` discards the frame.) -/
theorem escape_roundtrip (B : List Nat) (hlen : B.length ≤ 252) (hB : ∀ b ∈ B, b < 256) :
    decodeFrame (encodeFrame B) = some B ∧
    (encodeFrame B).count 0x7e = 1 ∧ (encodeFrame B).getD 0 0 = 0x7e := by
  refine ⟨?_, ?_, rfl⟩
  · unfold decodeFrame
    rw [seekFrame_encode B hlen hB]
    show (if (1 + (([0, B.length] ++ (B ++ [frameChecksum B])).drop 2).sum) % 256 = 0
        then some ((([0, B.length] ++ (B ++ [frameChecksum B])).drop 2).dropLast) else none) =
      some B
    have hdrop : (([0, B.length] ++ (B ++ [frameChecksum B])).drop 2) =
        B ++ [frameChecksum B] := rfl
    rw [hdrop]
    rw [if_pos (by
      have := frameChecksum_valid B hB
      simpa [List.sum_append] using this)]
    rw [List.dropLast_concat]
  · show ((0x7e : Nat) :: (escapeByte 0 ++ escapeByte (B.length % 256)
      ++ (B.map escapeByte).flatten ++ escapeByte (frameChecksum B))).count 0x7e = 1
    rw [List.count_cons_self]
    have : (0x7e : Nat) ∉ (escapeByte 0 ++ escapeByte (B.length % 256)
        ++ (B.map escapeByte).flatten ++ escapeByte (frameChecksum B)) := by
      intro hmem
      simp only [List.mem_append, List.mem_flatten, List.mem_map] at hmem
      rcases hmem with ((h | h) | ⟨l, ⟨x, _, hx⟩, h⟩) | h
      · exact escapeByte_not_7e h rfl
      · exact escapeByte_not_7e h rfl
      · exact escapeByte_not_7e (hx ▸ h) rfl
      · exact escapeByte_not_7e h rfl
    rw [List.count_eq_zero.mpr this]

set_option maxRecDepth 10000 in
/-- Claim C4, counterexample: a 253-byte payload does not round-trip: the
decoder gives up on the frame because its declared size reaches the
256-byte frame buffer. -/
theorem escape_roundtrip_fails_at_253 :
    (List.replicate 253 0).length ≤ 253 ∧
    decodeFrame (encodeFrame (List.replicate 253 0)) = none := by
  constructor
  · decide
  · decide

/-- Witness for `escape_roundtrip` at a concrete payload containing every
escapable byte. -/
theorem escape_roundtrip_witness :
    decodeFrame (encodeFrame [0x7e, 0x7d, 0x11, 0x13, 0x42]) =
        some [0x7e, 0x7d, 0x11, 0x13, 0x42] ∧
      (encodeFrame [0x7e, 0x7d, 0x11, 0x13, 0x42]).count 0x7e = 1 ∧
      (encodeFrame [0x7e, 0x7d, 0x11, 0x13, 0x42]).getD 0 0 = 0x7e :=
  escape_roundtrip [0x7e, 0x7d, 0x11, 0x13, 0x42] (by decide) (by decide)



/-! ### Basic facts about the serial device and the frame builders -/

theorem serialSend_sent (o : XBeeOut) (f : List Nat) :
    (serialSend o f).2.sent = o.sent ++ [f] := by
  unfold serialSend
  cases o.sendResults <;> rfl

theorem serialSend_nil (o : XBeeOut) (h : o.sendResults = []) (f : List Nat) :
    serialSend o f = (0, { o with sent := o.sent ++ [f] }) := by
  unfold serialSend
  rw [h]

theorem apiFramePayload_congr {xbs1 xbs2 : XBeeBootSession}
    (h : xbs1.xbee_address = xbs2.xbee_address) (apiType : Nat)
    (txSequence apiOption prePayload1 prePayload2 packetType sequence appType : Int)
    (data : List Nat) :
    apiFramePayload xbs1 apiType txSequence apiOption prePayload1 prePayload2
        packetType sequence appType data =
      apiFramePayload xbs2 apiType txSequence apiOption prePayload1 prePayload2
        packetType sequence appType data := by
  unfold apiFramePayload
  rw [h]

/-! ### Field preservation -/

theorem stats_send_fields (xbs : XBeeBootSession) (g s : Nat) (t : Timeval) :
    (xbeedev_stats_send xbs g s t).inSequence = xbs.inSequence ∧
      (xbeedev_stats_send xbs g s t).outSequence = xbs.outSequence ∧
      (xbeedev_stats_send xbs g s t).txSequence = xbs.txSequence := ⟨rfl, rfl, rfl⟩

theorem record16Bit_fields (xbs : XBeeBootSession) (r : List Nat) :
    (xbeedev_record16Bit xbs r).inSequence = xbs.inSequence ∧
      (xbeedev_record16Bit xbs r).outSequence = xbs.outSequence ∧
      (xbeedev_record16Bit xbs r).txSequence = xbs.txSequence ∧
      (xbeedev_record16Bit xbs r).inInIndex = xbs.inInIndex ∧
      (xbeedev_record16Bit xbs r).inOutIndex = xbs.inOutIndex ∧
      (xbeedev_record16Bit xbs r).inBuffer = xbs.inBuffer ∧
      (xbeedev_record16Bit xbs r).transportUnusable = xbs.transportUnusable := by
  unfold xbeedev_record16Bit
  split <;> exact ⟨rfl, rfl, rfl, rfl, rfl, rfl, rfl⟩

theorem sendAPIRequest_session (xbs : XBeeBootSession) (o : XBeeOut) (time : Timeval)
    (apiType : Nat)
    (txSequence apiOption prePayload1 prePayload2 packetType sequence appType : Int)
    (frameGroup : Nat) (data : List Nat) :
    (sendAPIRequest xbs o time apiType txSequence apiOption prePayload1
        prePayload2 packetType sequence appType frameGroup data).2.1.inSequence =
        xbs.inSequence ∧
      (sendAPIRequest xbs o time apiType txSequence apiOption prePayload1
        prePayload2 packetType sequence appType frameGroup data).2.1.outSequence =
        xbs.outSequence ∧
      (sendAPIRequest xbs o time apiType txSequence apiOption prePayload1
        prePayload2 packetType sequence appType frameGroup data).2.1.txSequence =
        xbs.txSequence ∧
      (sendAPIRequest xbs o time apiType txSequence apiOption prePayload1
        prePayload2 packetType sequence appType frameGroup data).2.1.inInIndex =
        xbs.inInIndex ∧
      (sendAPIRequest xbs o time apiType txSequence apiOption prePayload1
        prePayload2 packetType sequence appType frameGroup data).2.1.inOutIndex =
        xbs.inOutIndex ∧
      (sendAPIRequest xbs o time apiType txSequence apiOption prePayload1
        prePayload2 packetType sequence appType frameGroup data).2.1.inBuffer =
        xbs.inBuffer ∧
      (sendAPIRequest xbs o time apiType txSequence apiOption prePayload1
        prePayload2 packetType sequence appType frameGroup data).2.1.transportUnusable =
        xbs.transportUnusable ∧
      (sendAPIRequest xbs o time apiType txSequence apiOption prePayload1
        prePayload2 packetType sequence appType frameGroup data).2.1.xbee_address =
        xbs.xbee_address ∧
      (sendAPIRequest xbs o time apiType txSequence apiOption prePayload1
        prePayload2 packetType sequence appType frameGroup data).2.1.directMode =
        xbs.directMode := by
  unfold sendAPIRequest
  dsimp only []
  refine ⟨?_, ?_, ?_, ?_, ?_, ?_, ?_, ?_, ?_⟩ <;> (repeat' split) <;> rfl

theorem sendPacket_session (xbs : XBeeBootSession) (o : XBeeOut) (time : Timeval)
    (packetType sequence : Nat) (appType : Int) (data : List Nat) :
    (sendPacket xbs o time packetType sequence appType data).2.1.inSequence =
        xbs.inSequence ∧
      (sendPacket xbs o time packetType sequence appType data).2.1.outSequence =
        xbs.outSequence ∧
      (sendPacket xbs o time packetType sequence appType data).2.1.txSequence =
        nextSeq xbs.txSequence ∧
      (sendPacket xbs o time packetType sequence appType data).2.1.inInIndex =
        xbs.inInIndex ∧
      (sendPacket xbs o time packetType sequence appType data).2.1.inOutIndex =
        xbs.inOutIndex ∧
      (sendPacket xbs o time packetType sequence appType data).2.1.inBuffer =
        xbs.inBuffer ∧
      (sendPacket xbs o time packetType sequence appType data).2.1.transportUnusable =
        xbs.transportUnusable ∧
      (sendPacket xbs o time packetType sequence appType data).2.1.xbee_address =
        xbs.xbee_address ∧
      (sendPacket xbs o time packetType sequence appType data).2.1.directMode =
        xbs.directMode := by
  unfold sendPacket
  dsimp only []
  exact sendAPIRequest_session _ _ _ _ _ _ _ _ _ _ _ _ _

/-! ### The wire only grows -/

theorem sendAPIRequest_sent (xbs : XBeeBootSession) (o : XBeeOut) (time : Timeval)
    (apiType : Nat)
    (txSequence apiOption prePayload1 prePayload2 packetType sequence appType : Int)
    (frameGroup : Nat) (data : List Nat) :
    ∃ l, (sendAPIRequest xbs o time apiType txSequence apiOption prePayload1
      prePayload2 packetType sequence appType frameGroup data).2.2.sent = o.sent ++ l := by
  unfold sendAPIRequest
  dsimp only []
  repeat' split
  all_goals simp only [serialSend_sent, List.append_assoc]
  all_goals exact ⟨_, rfl⟩

theorem sendPacket_sent (xbs : XBeeBootSession) (o : XBeeOut) (time : Timeval)
    (packetType sequence : Nat) (appType : Int) (data : List Nat) :
    ∃ l, (sendPacket xbs o time packetType sequence appType data).2.2.sent =
      o.sent ++ l := by
  unfold sendPacket
  dsimp only []
  exact sendAPIRequest_sent _ _ _ _ _ _ _ _ _ _ _ _ _

theorem deliverBytes_session : ∀ (data : List Nat) (xbs : XBeeBootSession)
    (buf : Option (List Nat × Nat)),
    (deliverBytes xbs buf data).xbs.inSequence = xbs.inSequence ∧
      (deliverBytes xbs buf data).xbs.outSequence = xbs.outSequence ∧
      (deliverBytes xbs buf data).xbs.txSequence = xbs.txSequence ∧
      (deliverBytes xbs buf data).xbs.xbee_address = xbs.xbee_address ∧
      (deliverBytes xbs buf data).xbs.directMode = xbs.directMode := by
  intro data
  induction data with
  | nil => intro xbs buf; exact ⟨rfl, rfl, rfl, rfl, rfl⟩
  | cons d rest ih =>
    intro xbs buf
    match buf with
    | some (acc, cap + 1) =>
      simp only [deliverBytes]
      exact ih _ _
    | some (acc, 0) =>
      simp only [deliverBytes]
      repeat' split
      all_goals first | exact ⟨rfl, rfl, rfl, rfl, rfl⟩ | exact ih _ _
    | none =>
      simp only [deliverBytes]
      repeat' split
      all_goals first | exact ⟨rfl, rfl, rfl, rfl, rfl⟩ | exact ih _ _

theorem xbeeDataDispatch_session (xbs : XBeeBootSession) (o : XBeeOut) (time : Timeval)
    (buf : Option (List Nat × Nat)) (waitForAck : Int) (f : List Nat) (header : Nat) :
    (xbeeDataDispatch xbs o time buf waitForAck f header).xbs.outSequence =
        xbs.outSequence ∧
      ((xbeeDataDispatch xbs o time buf waitForAck f header).xbs.inSequence =
          xbs.inSequence ∨
        (xbeeDataDispatch xbs o time buf waitForAck f header).xbs.inSequence =
          nextSeq xbs.inSequence) := by
  unfold xbeeDataDispatch
  dsimp only []
  split
  case isFalse => exact ⟨rfl, Or.inl rfl⟩
  split
  · -- ACK branch
    split <;> exact ⟨rfl, Or.inl rfl⟩
  split
  case isFalse => exact ⟨rfl, Or.inl rfl⟩
  split
  case isFalse => exact ⟨rfl, Or.inl rfl⟩
  -- matched REQUEST: deliver, ACK, maybe finish the receive
  split
  · -- ring overrun
    next x3 b3 heq =>
      have hx := congrArg DeliverResult.xbs heq
      simp only [DeliverResult.xbs] at hx
      refine ⟨?_, Or.inr ?_⟩
      · show x3.outSequence = _
        rw [← hx]
        exact (deliverBytes_session _ _ _).2.1
      · show x3.inSequence = _
        rw [← hx]
        exact (deliverBytes_session _ _ _).1
  · -- delivery succeeded
    next x3 b3 heq =>
      have hx := congrArg DeliverResult.xbs heq
      simp only [DeliverResult.xbs] at hx
      have h1 : x3.outSequence = xbs.outSequence := by
        rw [← hx]
        exact (deliverBytes_session _ _ _).2.1
      have h2 : x3.inSequence = nextSeq xbs.inSequence := by
        rw [← hx]
        exact (deliverBytes_session _ _ _).1
      split
      · -- caller's buffer has been filled
        refine ⟨?_, Or.inr ?_⟩
        · show (sendPacket x3 _ _ _ _ _ _).2.1.outSequence = _
          rw [(sendPacket_session _ _ _ _ _ _ _).2.1]
          exact h1
        · show (sendPacket x3 _ _ _ _ _ _).2.1.inSequence = _
          rw [(sendPacket_session _ _ _ _ _ _ _).1]
          exact h2
      · -- keep receiving
        refine ⟨?_, Or.inr ?_⟩
        · show (xbeedev_stats_send (sendPacket x3 _ _ _ _ _ _).2.1 _ _ _).outSequence = _
          rw [(stats_send_fields _ _ _ _).2.1, (sendPacket_session _ _ _ _ _ _ _).2.1]
          exact h1
        · show (xbeedev_stats_send (sendPacket x3 _ _ _ _ _ _).2.1 _ _ _).inSequence = _
          rw [(stats_send_fields _ _ _ _).1, (sendPacket_session _ _ _ _ _ _ _).1]
          exact h2


theorem pollStep_session (xbs : XBeeBootSession) (o : XBeeOut) (time : Timeval)
    (buf : Option (List Nat × Nat)) (waitForAck waitForSequence : Int) (f : List Nat) :
    (pollStep xbs o time buf waitForAck waitForSequence f).xbs.outSequence =
        xbs.outSequence ∧
      ((pollStep xbs o time buf waitForAck waitForSequence f).xbs.inSequence =
          xbs.inSequence ∨
        (pollStep xbs o time buf waitForAck waitForSequence f).xbs.inSequence =
          nextSeq xbs.inSequence) := by
  unfold pollStep
  dsimp only []
  repeat' split
  any_goals (refine ⟨?_, ?_⟩ ; rfl ; first | rfl | (left ; rfl))
  any_goals (
    refine ⟨?_, ?_⟩ ;
    (exact (record16Bit_fields _ _).2.1) ;
    (left ; exact (record16Bit_fields _ _).1))
  all_goals (
    first
      | (obtain ⟨ho, hi⟩ :=
          xbeeDataDispatch_session (xbeedev_record16Bit xbs ((f.drop 11).take 2)) o
            time buf waitForAck f 14
         refine ⟨ho.trans (record16Bit_fields _ _).2.1, ?_⟩
         rcases hi with hi | hi
         · exact Or.inl (hi.trans (record16Bit_fields _ _).1)
         · refine Or.inr (hi.trans ?_)
           exact congrArg nextSeq (record16Bit_fields _ _).1)
      | exact xbeeDataDispatch_session xbs o time buf waitForAck f 16)



theorem xbeeDataDispatch_sent (xbs : XBeeBootSession) (o : XBeeOut) (time : Timeval)
    (buf : Option (List Nat × Nat)) (waitForAck : Int) (f : List Nat) (header : Nat) :
    ∃ l, (xbeeDataDispatch xbs o time buf waitForAck f header).out.sent =
      o.sent ++ l := by
  unfold xbeeDataDispatch
  dsimp only []
  repeat' split
  any_goals (refine ⟨[], ?_⟩ ; simp [PollStepResult.out] ; done)
  all_goals exact sendPacket_sent _ _ _ _ _ _ _

theorem pollStep_sent (xbs : XBeeBootSession) (o : XBeeOut) (time : Timeval)
    (buf : Option (List Nat × Nat)) (waitForAck waitForSequence : Int) (f : List Nat) :
    ∃ l, (pollStep xbs o time buf waitForAck waitForSequence f).out.sent =
      o.sent ++ l := by
  suffices h : ∀ r, pollStep xbs o time buf waitForAck waitForSequence f = r →
      ∃ l, r.out.sent = o.sent ++ l from h _ rfl
  intro r hr
  unfold pollStep at hr
  dsimp only [] at hr
  repeat' split at hr
  all_goals subst hr
  any_goals (refine ⟨[], ?_⟩ ; simp [PollStepResult.out] ; done)
  all_goals exact xbeeDataDispatch_sent _ _ _ _ _ _ _

theorem serialSend_results_nil (o : XBeeOut) (h : o.sendResults = []) (f : List Nat) :
    (serialSend o f).2.sendResults = [] := by
  rw [serialSend_nil o h]
  exact h

theorem sendAPIRequest_results_nil (xbs : XBeeBootSession) (o : XBeeOut) (time : Timeval)
    (apiType : Nat)
    (txSequence apiOption prePayload1 prePayload2 packetType sequence appType : Int)
    (frameGroup : Nat) (data : List Nat) (h : o.sendResults = []) :
    (sendAPIRequest xbs o time apiType txSequence apiOption prePayload1
      prePayload2 packetType sequence appType frameGroup data).2.2.sendResults = [] := by
  unfold sendAPIRequest
  dsimp only []
  repeat' split
  all_goals first
    | exact serialSend_results_nil _ h _
    | exact serialSend_results_nil _ (serialSend_results_nil _ h _) _

theorem sendPacket_results_nil (xbs : XBeeBootSession) (o : XBeeOut) (time : Timeval)
    (packetType sequence : Nat) (appType : Int) (data : List Nat) (h : o.sendResults = []) :
    (sendPacket xbs o time packetType sequence appType data).2.2.sendResults = [] := by
  unfold sendPacket
  dsimp only []
  exact sendAPIRequest_results_nil _ _ _ _ _ _ _ _ _ _ _ _ _ h

theorem xbeeDataDispatch_results_nil (xbs : XBeeBootSession) (o : XBeeOut) (time : Timeval)
    (buf : Option (List Nat × Nat)) (waitForAck : Int) (f : List Nat) (header : Nat)
    (h : o.sendResults = []) :
    (xbeeDataDispatch xbs o time buf waitForAck f header).out.sendResults = [] := by
  unfold xbeeDataDispatch
  dsimp only []
  repeat' split
  any_goals exact h
  all_goals exact sendPacket_results_nil _ _ _ _ _ _ _ h

theorem pollStep_results_nil (xbs : XBeeBootSession) (o : XBeeOut) (time : Timeval)
    (buf : Option (List Nat × Nat)) (waitForAck waitForSequence : Int) (f : List Nat)
    (h : o.sendResults = []) :
    (pollStep xbs o time buf waitForAck waitForSequence f).out.sendResults = [] := by
  unfold pollStep
  dsimp only []
  repeat' split
  any_goals exact h
  all_goals exact xbeeDataDispatch_results_nil _ _ _ _ _ _ _ h

theorem pollGo_session : ∀ (fuel : Nat) (xbs : XBeeBootSession) (w : XBeeSerial)
    (buf : Option (List Nat × Nat)) (waitForAck waitForSequence : Int),
    (pollGo fuel xbs w buf waitForAck waitForSequence).xbs.outSequence =
      xbs.outSequence := by
  intro fuel
  induction fuel with
  | zero => intros; rfl
  | succ n ih =>
    intro xbs w buf waitForAck waitForSequence
    simp only [pollGo]
    split
    · rfl
    · split
      · rename_i f1 rest1 hseek xx rc1 xbs1 o1 buf1 hstep
        show xbs1.outSequence = xbs.outSequence
        have hp := (pollStep_session xbs w.out w.time buf waitForAck waitForSequence f1).1
        rw [hstep] at hp
        exact hp
      · rename_i f1 rest1 hseek xx xbs1 o1 buf1 hstep
        rw [ih]
        have hp := (pollStep_session xbs w.out w.time buf waitForAck waitForSequence f1).1
        rw [hstep] at hp
        exact hp

theorem pollGo_sent : ∀ (fuel : Nat) (xbs : XBeeBootSession) (w : XBeeSerial)
    (buf : Option (List Nat × Nat)) (waitForAck waitForSequence : Int),
    ∃ l, (pollGo fuel xbs w buf waitForAck waitForSequence).w.out.sent =
      w.out.sent ++ l := by
  intro fuel
  induction fuel with
  | zero => intros; exact ⟨[], by simp [pollGo]⟩
  | succ n ih =>
    intro xbs w buf waitForAck waitForSequence
    simp only [pollGo]
    split
    · exact ⟨[], by simp⟩
    · split
      · rename_i f1 rest1 hseek xx rc1 xbs1 o1 buf1 hstep
        have h1 := pollStep_sent xbs w.out w.time buf waitForAck waitForSequence f1
        rw [hstep] at h1
        simp only [PollStepResult.out] at h1
        exact h1
      · rename_i f1 rest1 hseek xx xbs1 o1 buf1 hstep
        have h1 := pollStep_sent xbs w.out w.time buf waitForAck waitForSequence f1
        rw [hstep] at h1
        simp only [PollStepResult.out] at h1
        obtain ⟨l1, hl1⟩ := h1
        obtain ⟨l2, hl2⟩ := ih xbs1 { w with input := rest1, out := o1 } buf1
          waitForAck waitForSequence
        exact ⟨l1 ++ l2, by rw [hl2] ; dsimp only [] ; rw [hl1, List.append_assoc]⟩

theorem pollGo_results_nil : ∀ (fuel : Nat) (xbs : XBeeBootSession) (w : XBeeSerial)
    (buf : Option (List Nat × Nat)) (waitForAck waitForSequence : Int),
    w.out.sendResults = [] →
    (pollGo fuel xbs w buf waitForAck waitForSequence).w.out.sendResults = [] := by
  intro fuel
  induction fuel with
  | zero => intro _ _ _ _ _ h; exact h
  | succ n ih =>
    intro xbs w buf waitForAck waitForSequence h
    simp only [pollGo]
    split
    · exact h
    · split
      · rename_i f1 rest1 hseek xx rc1 xbs1 o1 buf1 hstep
        have h1 := pollStep_results_nil xbs w.out w.time buf waitForAck waitForSequence f1 h
        rw [hstep] at h1
        exact h1
      · rename_i f1 rest1 hseek xx xbs1 o1 buf1 hstep
        have h1 := pollStep_results_nil xbs w.out w.time buf waitForAck waitForSequence f1 h
        rw [hstep] at h1
        exact ih xbs1 { w with input := rest1, out := o1 } buf1 waitForAck waitForSequence h1



/-! ### Source-route emission (C5) -/

theorem stats_send_route_fields (xbs : XBeeBootSession) (g s : Nat) (t : Timeval) :
    (xbeedev_stats_send xbs g s t).sourceRouteChanged = xbs.sourceRouteChanged ∧
      (xbeedev_stats_send xbs g s t).sourceRouteHops = xbs.sourceRouteHops ∧
      (xbeedev_stats_send xbs g s t).sourceRoute = xbs.sourceRoute ∧
      (xbeedev_stats_send xbs g s t).xbee_address = xbs.xbee_address ∧
      (xbeedev_stats_send xbs g s t).directMode = xbs.directMode := ⟨rfl, rfl, rfl, rfl, rfl⟩

theorem stats_send_hops (xbs : XBeeBootSession) (g s : Nat) (t : Timeval) :
    (xbeedev_stats_send xbs g s t).sourceRouteHops = xbs.sourceRouteHops := rfl

theorem stats_send_route (xbs : XBeeBootSession) (g s : Nat) (t : Timeval) :
    (xbeedev_stats_send xbs g s t).sourceRoute = xbs.sourceRoute := rfl

theorem apiFramePayload_stats (xbs : XBeeBootSession) (g s : Nat) (t : Timeval)
    (apiType : Nat)
    (txSequence apiOption prePayload1 prePayload2 packetType sequence appType : Int)
    (data : List Nat) :
    apiFramePayload (xbeedev_stats_send xbs g s t) apiType txSequence apiOption
        prePayload1 prePayload2 packetType sequence appType data =
      apiFramePayload xbs apiType txSequence apiOption prePayload1 prePayload2
        packetType sequence appType data :=
  apiFramePayload_congr rfl _ _ _ _ _ _ _ _ _

theorem apiFramePayload_setChanged (xbs : XBeeBootSession) (b : Bool)
    (apiType : Nat)
    (txSequence apiOption prePayload1 prePayload2 packetType sequence appType : Int)
    (data : List Nat) :
    apiFramePayload { xbs with sourceRouteChanged := b } apiType txSequence apiOption
        prePayload1 prePayload2 packetType sequence appType data =
      apiFramePayload xbs apiType txSequence apiOption prePayload1 prePayload2
        packetType sequence appType data :=
  apiFramePayload_congr rfl _ _ _ _ _ _ _ _ _

/-- `sendAPIRequest` when the Create Source Route prefix does not apply
(local AT, a 0x21 frame itself, or an unchanged route): exactly one frame
is emitted and the call succeeds (on an all-accepting serial device). -/
theorem sendAPIRequest_emits_noRoute (xbs : XBeeBootSession) (o : XBeeOut) (time : Timeval)
    (apiType : Nat)
    (txSequence apiOption prePayload1 prePayload2 packetType sequence appType : Int)
    (frameGroup : Nat) (data : List Nat)
    (h : apiType = 0x08 ∨ apiType = 0x21 ∨ xbs.sourceRouteChanged = false)
    (hres : o.sendResults = []) :
    (sendAPIRequest xbs o time apiType txSequence apiOption prePayload1 prePayload2
        packetType sequence appType frameGroup data).1 = 0 ∧
      (sendAPIRequest xbs o time apiType txSequence apiOption prePayload1 prePayload2
        packetType sequence appType frameGroup data).2.2.sendResults = [] ∧
      (sendAPIRequest xbs o time apiType txSequence apiOption prePayload1 prePayload2
        packetType sequence appType frameGroup data).2.2.sent =
        o.sent ++ [encodeFrame (apiFramePayload xbs apiType txSequence apiOption
          prePayload1 prePayload2 packetType sequence appType data)] := by
  have hguard : ¬ (apiType ≠ 0x08 ∧ apiType ≠ 0x21 ∧
      (if 0 ≤ txSequence then
        xbeedev_stats_send xbs frameGroup txSequence.toNat time else xbs).sourceRouteChanged = true) := by
    rintro ⟨h8, h21, hc⟩
    have hc2 : xbs.sourceRouteChanged = true := by
      revert hc
      split
      · exact fun hc => hc
      · exact fun hc => hc
    rcases h with h | h | h
    · exact h8 h
    · exact h21 h
    · rw [h] at hc2 ; exact Bool.false_ne_true hc2
  unfold sendAPIRequest
  dsimp only []
  rw [if_neg hguard]
  rw [serialSend_nil _ hres]
  dsimp only []
  refine ⟨?_, ?_, ?_⟩
  · rfl
  · exact hres
  · (repeat' split) ; all_goals simp only [apiFramePayload_stats]

/-- Claim C5: while `sourceRouteChanged` is set, an addressed API frame
(any `apiType` other than local AT 0x08 and other than 0x21 itself) is
immediately preceded on the wire by a 0x21 Create Source Route frame with
frame id 0, the cached hop count and the cached hop vector, and the
changed flag is cleared before the addressed frame is sent. -/
theorem sourceRoute_precedes_addressed (xbs : XBeeBootSession) (o : XBeeOut) (time : Timeval)
    (apiType : Nat)
    (txSequence apiOption prePayload1 prePayload2 packetType sequence appType : Int)
    (frameGroup : Nat) (data : List Nat)
    (h8 : apiType ≠ 0x08) (h21 : apiType ≠ 0x21)
    (hch : xbs.sourceRouteChanged = true)
    (hres : o.sendResults = []) :
    (sendAPIRequest xbs o time apiType txSequence apiOption prePayload1 prePayload2
        packetType sequence appType frameGroup data).1 = 0 ∧
      (sendAPIRequest xbs o time apiType txSequence apiOption prePayload1 prePayload2
        packetType sequence appType frameGroup data).2.1.sourceRouteChanged = false ∧
      (sendAPIRequest xbs o time apiType txSequence apiOption prePayload1 prePayload2
        packetType sequence appType frameGroup data).2.2.sent =
        o.sent ++
          [encodeFrame (apiFramePayload xbs 0x21 0 (-1) 0 xbs.sourceRouteHops (-1) (-1) (-1)
            (xbs.sourceRoute.take (2 * xbs.sourceRouteHops.toNat))),
           encodeFrame (apiFramePayload xbs apiType txSequence apiOption prePayload1
            prePayload2 packetType sequence appType data)] := by
  have hguard : (apiType ≠ 0x08 ∧ apiType ≠ 0x21 ∧
      (if 0 ≤ txSequence then
        xbeedev_stats_send xbs frameGroup txSequence.toNat time else xbs).sourceRouteChanged = true) := by
    refine ⟨h8, h21, ?_⟩
    split
    · exact hch
    · exact hch
  unfold sendAPIRequest
  dsimp only []
  rw [if_pos hguard]
  rw [serialSend_nil _ hres]
  dsimp only []
  rw [if_neg (by decide : ¬ ((0 : Int) ≠ 0))]
  rw [serialSend_nil _ (by exact hres)]
  dsimp only []
  refine ⟨?_, ?_, ?_⟩
  · rfl
  · (repeat' split) ; all_goals rfl
  · (repeat' split) ; all_goals
      ((try simp only [apiFramePayload_stats, apiFramePayload_setChanged]) ;
       (try simp only [stats_send_hops, stats_send_route]) ;
       (try simp only [List.append_assoc, List.singleton_append, List.cons_append,
          List.nil_append]) ; try rfl)

/-- Witness for `sourceRoute_precedes_addressed`: a 0x10 Transmit Request
on a session with a changed one-hop route is preceded by the 0x21 frame. -/
theorem sourceRoute_precedes_addressed_witness :
    (sendAPIRequest routeSession ⟨[], []⟩ ⟨0, 0⟩ 0x10 1 (-1) 0 0 1 1 23 1 [0x41]).1 = 0 ∧
      (sendAPIRequest routeSession ⟨[], []⟩ ⟨0, 0⟩ 0x10 1 (-1) 0 0 1 1 23 1
        [0x41]).2.1.sourceRouteChanged = false ∧
      (sendAPIRequest routeSession ⟨[], []⟩ ⟨0, 0⟩ 0x10 1 (-1) 0 0 1 1 23 1 [0x41]).2.2.sent =
        (⟨[], []⟩ : XBeeOut).sent ++
          [encodeFrame (apiFramePayload routeSession 0x21 0 (-1) 0 routeSession.sourceRouteHops
            (-1) (-1) (-1) (routeSession.sourceRoute.take (2 * routeSession.sourceRouteHops.toNat))),
           encodeFrame (apiFramePayload routeSession 0x10 1 (-1) 0 0 1 1 23 [0x41])] :=
  sourceRoute_precedes_addressed routeSession ⟨[], []⟩ ⟨0, 0⟩ 0x10 1 (-1) 0 0 1 1 23 1 [0x41]
    (by decide) (by decide) rfl rfl

/-! ### Reset pulse (C7) -/

theorem apiFramePayload_setTx (xbs : XBeeBootSession) (n : Nat)
    (apiType : Nat)
    (txSequence apiOption prePayload1 prePayload2 packetType sequence appType : Int)
    (data : List Nat) :
    apiFramePayload { xbs with txSequence := n } apiType txSequence apiOption
        prePayload1 prePayload2 packetType sequence appType data =
      apiFramePayload xbs apiType txSequence apiOption prePayload1 prePayload2
        packetType sequence appType data :=
  apiFramePayload_congr rfl _ _ _ _ _ _ _ _ _

theorem sendATRetry_sent : ∀ (n : Nat) (xbs : XBeeBootSession) (w : XBeeSerial) (s : Nat),
    ∃ l, (sendATRetry n xbs w s).2.2.out.sent = w.out.sent ++ l := by
  intro n
  induction n with
  | zero => intro xbs w s; exact ⟨[], (List.append_nil _).symm⟩
  | succ m ih =>
    intro xbs w s
    obtain ⟨l1, hl1⟩ := pollGo_sent (w.input.length + 1) xbs w none (-1) (s : Int)
    simp only [sendATRetry]
    unfold xbeedev_poll
    split
    · exact ⟨l1, hl1⟩
    · split
      · exact ⟨l1, hl1⟩
      · obtain ⟨l2, hl2⟩ := ih (pollGo (w.input.length + 1) xbs w none (-1) (s : Int)).xbs
          (pollGo (w.input.length + 1) xbs w none (-1) (s : Int)).w s
        exact ⟨l1 ++ l2, by rw [hl2, hl1, List.append_assoc]⟩

/-- `sendAT` in OTA mode with no pending source-route update: the first
frame put on the wire is the 0x17 Remote AT request carrying the two
command letters and the optional value byte. -/
theorem sendAT_emits (xbs : XBeeBootSession) (w : XBeeSerial) (at1 at2 : Nat) (value : Int)
    (hdm : xbs.directMode = false)
    (hch : xbs.sourceRouteChanged = false)
    (hres : w.out.sendResults = []) :
    ∃ rest, (sendAT xbs w at1 at2 value).2.2.out.sent =
      w.out.sent ++ encodeFrame (apiFramePayload xbs 0x17
        (nextSeq xbs.txSequence) (-1) (-1) (-1) (-1) 0x02 (-1)
        ([at1, at2] ++ (if (0 : Int) ≤ value then [value.toNat] else []))) :: rest := by
  have hch1 : ({ xbs with txSequence := nextSeq xbs.txSequence } :
      XBeeBootSession).sourceRouteChanged = false := hch
  have hemit := fun (t : Int) (d : List Nat) => sendAPIRequest_emits_noRoute
    { xbs with txSequence := nextSeq xbs.txSequence } w.out w.time 0x17
    t (-1) (-1) (-1) (-1) 0x02 (-1) 1 d
    (Or.inr (Or.inr hch1)) hres
  unfold sendAT
  rw [if_neg (fun h => Bool.false_ne_true (hdm ▸ h))]
  obtain ⟨l1, hl1⟩ := sendATRetry_sent 30 _ _ _
  rw [hl1]
  dsimp only []
  rw [(hemit _ _).2.2, apiFramePayload_setTx, List.append_assoc, List.singleton_append]
  exact ⟨l1, rfl⟩

/-- Claim C7 (amended): in OTA mode with the default reset pin 3 (and no
pending source-route update), `set_dtr_rts(is_on)` first emits the Remote
AT command `D3` with parameter value 5 when `is_on` is set and 4
otherwise: the parameter follows `is_on` (5 = digital output high)
rather than inverting it. -/
theorem set_dtr_rts_follows_on (xbs : XBeeBootSession) (w : XBeeSerial) (is_on : Bool)
    (hdm : xbs.directMode = false)
    (hch : xbs.sourceRouteChanged = false)
    (hpin : xbs.xbeeResetPin = 3)
    (hres : w.out.sendResults = []) :
    ∃ rest, (xbeedev_set_dtr_rts xbs w is_on).2.2.out.sent =
      w.out.sent ++ encodeFrame (apiFramePayload xbs 0x17
        (nextSeq xbs.txSequence) (-1) (-1) (-1) (-1) 0x02 (-1)
        [0x44, 0x33, if is_on then 5 else 4]) :: rest := by
  cases is_on
  · unfold xbeedev_set_dtr_rts
    rw [hdm]
    simp only [Bool.false_eq_true, if_false, reduceIte]
    rw [hpin]
    obtain ⟨l, hl⟩ := sendAT_emits xbs w 0x44 ((48 + (3 : Int)).toNat) 4 hdm hch hres
    refine ⟨l, ?_⟩
    split
    · split
      · exact hl
      · exact hl
    · exact hl
  · unfold xbeedev_set_dtr_rts
    rw [hdm]
    simp only [Bool.false_eq_true, if_false, reduceIte]
    rw [hpin]
    obtain ⟨l, hl⟩ := sendAT_emits xbs w 0x44 ((48 + (3 : Int)).toNat) 5 hdm hch hres
    refine ⟨l, ?_⟩
    split
    · split
      · exact hl
      · exact hl
    · exact hl

/-- Claim C7, counterexample: on a fresh OTA session `set_dtr_rts(1)`
emits Remote AT `D3` with parameter 5 (not 4 as claimed) and
`set_dtr_rts(0)` emits parameter 4 (not 5): the only frame on the wire is
the 0x17 Remote AT request whose last data byte is the parameter. -/
theorem set_dtr_rts_claim_counterexample :
    (xbeedev_set_dtr_rts otaSession emptySerial true).2.2.out.sent =
      [encodeFrame ([0x17, 1] ++ [0, 0, 0, 0, 0, 0, 0, 0, 0xff, 0xfe] ++ [0x02]
        ++ [0x44, 0x33, 5])] ∧
      (xbeedev_set_dtr_rts otaSession emptySerial false).2.2.out.sent =
        [encodeFrame ([0x17, 1] ++ [0, 0, 0, 0, 0, 0, 0, 0, 0xff, 0xfe] ++ [0x02]
          ++ [0x44, 0x33, 4])] := by
  decide

/-- Witness for `set_dtr_rts_follows_on` on a fresh OTA session. -/
theorem set_dtr_rts_follows_on_witness :
    ∃ rest, (xbeedev_set_dtr_rts otaSession emptySerial true).2.2.out.sent =
      emptySerial.out.sent ++ encodeFrame (apiFramePayload otaSession 0x17
        (nextSeq otaSession.txSequence) (-1) (-1) (-1) (-1) 0x02 (-1)
        [0x44, 0x33, if true then 5 else 4]) :: rest :=
  set_dtr_rts_follows_on otaSession emptySerial true rfl rfl rfl rfl

/-! ### Transport-unusable latch (C1) -/

theorem recvDebuffer_empty (fuel : Nat) (xbs : XBeeBootSession) (buflen : Nat)
    (h : xbs.inInIndex = xbs.inOutIndex) :
    recvDebuffer fuel xbs [] buflen = (xbs, [], buflen, false) := by
  cases fuel with
  | zero => rfl
  | succ n =>
    simp only [recvDebuffer]
    rw [if_neg (fun hne => hne h)]

theorem xbeedev_send_loop_latch : ∀ (fuel : Nat) (xbs : XBeeBootSession) (w : XBeeSerial)
    (buf : List Nat), (xbeedev_send_loop fuel xbs w buf).1 < 0 →
    (xbeedev_send_loop fuel xbs w buf).2.1.transportUnusable = true := by
  intro fuel
  induction fuel with
  | zero =>
    intro xbs w buf h
    cases buf with
    | nil => exact absurd h (by simp [xbeedev_send_loop])
    | cons b bs => rfl
  | succ n ih =>
    intro xbs w buf h
    cases buf with
    | nil => exact absurd h (by simp [xbeedev_send_loop])
    | cons b bs =>
      simp only [xbeedev_send_loop] at h ⊢
      split at h
      · rename_i hc
        rw [if_pos hc]
        exact ih _ _ _ h
      · rename_i hc
        rw [if_neg hc]
        split at h
        · rename_i hc2
          rw [if_pos hc2]
        · rename_i hc2
          rw [if_neg hc2]
          exact absurd h hc2

/-- Claim C1 (amended): the transport-unusable latch is one-directional
and is set by failing sends, not by receive timeouts: a latched session
fails `send` and `drain` immediately with the state untouched, fails
`recv` immediately when the input ring cannot serve any byte, and every
erroring `send` leaves the session latched.  (A `recv` whose retries are
exhausted returns an error without latching; see the counterexample.) -/
theorem transport_unusable_latch :
    (∀ (xbs : XBeeBootSession) (w : XBeeSerial) (buf : List Nat),
      xbs.transportUnusable = true → xbeedev_send xbs w buf = (-1, xbs, w)) ∧
      (∀ (xbs : XBeeBootSession) (w : XBeeSerial),
        xbs.transportUnusable = true → xbeedev_drain xbs w = (-1, xbs, w)) ∧
      (∀ (xbs : XBeeBootSession) (w : XBeeSerial) (buflen : Nat),
        xbs.transportUnusable = true → xbs.inInIndex = xbs.inOutIndex →
        xbeedev_recv xbs w buflen = (-1, xbs, w, [])) ∧
      (∀ (xbs : XBeeBootSession) (w : XBeeSerial) (buf : List Nat),
        (xbeedev_send xbs w buf).1 < 0 →
        (xbeedev_send xbs w buf).2.1.transportUnusable = true) := by
  refine ⟨?_, ?_, ?_, ?_⟩
  · intro xbs w buf hu
    unfold xbeedev_send
    rw [if_pos hu]
  · intro xbs w hu
    unfold xbeedev_drain
    rw [if_pos hu]
  · intro xbs w buflen hu hring
    unfold xbeedev_recv
    rw [recvDebuffer_empty 256 xbs buflen hring]
    dsimp only []
    rw [if_neg Bool.false_ne_true, if_pos hu]
  · intro xbs w buf h
    unfold xbeedev_send at h ⊢
    split at h
    · rename_i hc
      rw [if_pos hc]
      exact hc
    · rename_i hc
      rw [if_neg hc]
      exact xbeedev_send_loop_latch _ _ _ _ h

/-- Claim C1, counterexample: a `recv` that exhausts its retries returns
`-1` but does NOT latch `transportUnusable` (the code returns `-1`
directly instead of going through the latching path), and a subsequent
`send` on the very same session succeeds, performing serial I/O: the wire
receives one REQUEST frame and the inbound ACK is consumed. -/
theorem recv_error_does_not_latch :
    (xbeedev_recv baseSession emptySerial 1).1 = -1 ∧
      (xbeedev_recv baseSession emptySerial 1).2.1.transportUnusable = false ∧
      (xbeedev_send (xbeedev_recv baseSession emptySerial 1).2.1
          { emptySerial with input := directAck1 } [0x41]).1 = 0 ∧
      (xbeedev_send (xbeedev_recv baseSession emptySerial 1).2.1
          { emptySerial with input := directAck1 } [0x41]).2.2.out.sent.length = 1 := by
  decide

/-- Witness for `transport_unusable_latch` on a latched session. -/
theorem transport_unusable_latch_witness :
    xbeedev_send unusableSession emptySerial [0x41] = (-1, unusableSession, emptySerial) ∧
      xbeedev_drain unusableSession emptySerial = (-1, unusableSession, emptySerial) ∧
      xbeedev_recv unusableSession emptySerial 4 = (-1, unusableSession, emptySerial, []) ∧
      (xbeedev_send unusableSession emptySerial [0x41]).2.1.transportUnusable = true :=
  ⟨transport_unusable_latch.1 _ _ _ rfl, transport_unusable_latch.2.1 _ _ rfl,
   transport_unusable_latch.2.2.1 _ _ _ rfl rfl,
   transport_unusable_latch.2.2.2 _ _ _ (by decide)⟩

/-! ### Duplicate REQUEST handling (C2) -/

/-- Claim C2: an inbound REQUEST frame (packet type 1, FRAME_REPLY app
type 24) whose sequence is not the successor of `inSequence` is dropped:
the dispatcher only records receive statistics and continues without
advancing `inSequence`, without touching the input ring or the caller's
buffer and without emitting anything; recording statistics preserves the
receiver state; and the ACK re-emitted by the outer retry paths (the
`sendPacket` call with packet type 0 and the current `inSequence`) puts
exactly one ACK frame carrying that sequence on the wire. -/
theorem stale_request_dropped :
    (∀ (xbs : XBeeBootSession) (o : XBeeOut) (time : Timeval)
        (buf : Option (List Nat × Nat)) (waitForAck : Int) (f : List Nat) (header : Nat),
      f.length - header - 1 ≥ 4 →
      ((f.drop header).take (f.length - header - 1)).getD 0 0 = 1 →
      ((f.drop header).take (f.length - header - 1)).getD 2 0 = 24 →
      ((f.drop header).take (f.length - header - 1)).getD 1 0 ≠ nextSeq xbs.inSequence →
      xbeeDataDispatch xbs o time buf waitForAck f header =
        .cont (xbeedev_stats_receive xbs 3
          (((f.drop header).take (f.length - header - 1)).getD 1 0) time) o buf) ∧
      (∀ (xbs : XBeeBootSession) (g s : Nat) (t : Timeval),
        (xbeedev_stats_receive xbs g s t).inSequence = xbs.inSequence ∧
          (xbeedev_stats_receive xbs g s t).inBuffer = xbs.inBuffer ∧
          (xbeedev_stats_receive xbs g s t).inInIndex = xbs.inInIndex ∧
          (xbeedev_stats_receive xbs g s t).inOutIndex = xbs.inOutIndex) ∧
      (∀ (xbs : XBeeBootSession) (o : XBeeOut) (time : Timeval) (sequence : Nat),
        xbs.sourceRouteChanged = false → o.sendResults = [] →
        (sendPacket xbs o time 0 sequence (-1) []).2.2.sent =
          o.sent ++ [encodeFrame (apiFramePayload xbs
            (if xbs.directMode then 0x90 else 0x10) (nextSeq xbs.txSequence)
            (-1) (if xbs.directMode then -1 else 0) (if xbs.directMode then -1 else 0)
            0 (sequence : Int) (-1) [])]) := by
  refine ⟨?_, ?_, ?_⟩
  · intro xbs o time buf waitForAck f header h4 h1 h24 hseq
    have hseq2 : ((f.drop header).take (f.length - header - 1)).getD 1 0 ≠
        nextSeq (xbeedev_stats_receive xbs 3
          (((f.drop header).take (f.length - header - 1)).getD 1 0) time).inSequence := hseq
    unfold xbeeDataDispatch
    dsimp only []
    rw [if_pos (by omega : f.length - header - 1 ≥ 2)]
    rw [if_neg (by intro h0 ; rw [h1] at h0 ; exact one_ne_zero h0)]
    rw [if_pos ⟨h1, h4, h24⟩]
    rw [if_neg hseq2]
  · intro xbs g s t
    exact ⟨rfl, rfl, rfl, rfl⟩
  · intro xbs o time sequence hch hres
    have hch1 : ({ xbs with txSequence := nextSeq xbs.txSequence } :
        XBeeBootSession).sourceRouteChanged = false := hch
    unfold sendPacket
    dsimp only []
    have hemit := fun (a : Nat) (p1 p2 : Int) => sendAPIRequest_emits_noRoute
      { xbs with txSequence := nextSeq xbs.txSequence } o time a
      (nextSeq xbs.txSequence : Int) (-1) p1 p2 ((0 : Nat) : Int) (sequence : Int) (-1) 1 []
      (Or.inr (Or.inr hch1)) hres
    rw [(hemit _ _ _).2.2, apiFramePayload_setTx]
    cases xbs.directMode <;> rfl

/-- Witness for `stale_request_dropped`: a direct-mode 0x10 frame carrying
packet type 1, stale sequence 5, app type 24 against a session expecting
sequence 1 is dropped, and the re-emitted ACK carries sequence 1. -/
theorem stale_request_dropped_witness :
    xbeeDataDispatch baseSession ⟨[], []⟩ ⟨0, 0⟩ none (-1)
        [0, 20, 0x10, 0, 0, 0, 0, 0, 0, 0, 0, 0, 0, 0, 0, 0, 1, 5, 24, 0x41, 0] 16 =
      .cont (xbeedev_stats_receive baseSession 3 5 ⟨0, 0⟩) ⟨[], []⟩ none ∧
      (sendPacket baseSession ⟨[], []⟩ ⟨0, 0⟩ 0 1 (-1) []).2.2.sent =
        (⟨[], []⟩ : XBeeOut).sent ++ [encodeFrame (apiFramePayload baseSession 0x90
          (nextSeq baseSession.txSequence) (-1) (-1) (-1) 0 1 (-1) [])] :=
  ⟨stale_request_dropped.1 baseSession ⟨[], []⟩ ⟨0, 0⟩ none (-1)
      [0, 20, 0x10, 0, 0, 0, 0, 0, 0, 0, 0, 0, 0, 0, 0, 0, 1, 5, 24, 0x41, 0] 16
      (by decide) (by decide) (by decide) (by decide),
   stale_request_dropped.2.2 baseSession ⟨[], []⟩ ⟨0, 0⟩ 1 rfl rfl⟩

/-! ### Sequence counters (C6) -/

theorem nextSeq_pos (x : Nat) : 1 ≤ nextSeq x := by
  unfold nextSeq
  dsimp only []
  split
  · exact le_refl 1
  · rename_i h
    omega

theorem nextSeq_le (x : Nat) : nextSeq x ≤ 255 := by
  unfold nextSeq
  dsimp only []
  split
  · exact Nat.le_of_lt (by omega)
  · rename_i h
    have : (x + 1) % 256 < 256 := Nat.mod_lt _ (by omega)
    omega

theorem sendAttempt_outSequence (xbs : XBeeBootSession) (w : XBeeSerial)
    (sequence : Nat) (chunk : List Nat) :
    (sendAttempt xbs w sequence chunk).xbs.outSequence = xbs.outSequence := by
  unfold sendAttempt xbeedev_poll
  dsimp only []
  repeat' split
  all_goals simp only [SendAttemptResult.xbs]
  all_goals first
    | exact (sendPacket_session _ _ _ _ _ _ _).2.1
    | (rw [pollGo_session]
       exact (sendPacket_session _ _ _ _ _ _ _).2.1)
    | (rw [(sendPacket_session _ _ _ _ _ _ _).2.1, pollGo_session]
       exact (sendPacket_session _ _ _ _ _ _ _).2.1)

theorem sendChunkRetries_outSequence : ∀ (n : Nat) (pollRc : Int) (xbs : XBeeBootSession)
    (w : XBeeSerial) (sequence : Nat) (chunk : List Nat),
    (sendChunkRetries n pollRc xbs w sequence chunk).2.2.1.outSequence = xbs.outSequence := by
  intro n
  induction n with
  | zero => intros; rfl
  | succ m ih =>
    intro pollRc xbs w sequence chunk
    simp only [sendChunkRetries]
    have ha := sendAttempt_outSequence xbs w sequence chunk
    split
    · rename_i rc1 xbs1 w1 heq
      rw [heq] at ha
      exact ha
    · rename_i xbs1 w1 heq
      rw [heq] at ha
      exact ha
    · rename_i rc1 xbs1 w1 heq
      rw [heq] at ha
      rw [ih]
      exact ha

/-- Claim C6: the sequence-increment idiom `while ((++x & 0xff) == 0);`
keeps every counter in `[1, 255]`: its value is always in `[1, 255]`, it
wraps 255 to 1 and otherwise adds 1; `sendPacket` allocates the next
`txSequence` this way; the poll dispatcher either keeps `inSequence` or
advances it to its successor; and the send loop leaves `outSequence`
either untouched or in `[1, 255]`. -/
theorem sequence_counters_skip_zero :
    (∀ x : Nat, 1 ≤ nextSeq x ∧ nextSeq x ≤ 255) ∧
      nextSeq 255 = 1 ∧
      (∀ x : Nat, x + 1 ≤ 255 → nextSeq x = x + 1) ∧
      (∀ (xbs : XBeeBootSession) (o : XBeeOut) (time : Timeval) (packetType sequence : Nat)
        (appType : Int) (data : List Nat),
        (sendPacket xbs o time packetType sequence appType data).2.1.txSequence =
          nextSeq xbs.txSequence) ∧
      (∀ (xbs : XBeeBootSession) (o : XBeeOut) (time : Timeval)
        (buf : Option (List Nat × Nat)) (waitForAck waitForSequence : Int) (f : List Nat),
        (pollStep xbs o time buf waitForAck waitForSequence f).xbs.inSequence =
            xbs.inSequence ∨
          (pollStep xbs o time buf waitForAck waitForSequence f).xbs.inSequence =
            nextSeq xbs.inSequence) ∧
      (∀ (fuel : Nat) (xbs : XBeeBootSession) (w : XBeeSerial) (buf : List Nat),
        (xbeedev_send_loop fuel xbs w buf).2.1.outSequence = xbs.outSequence ∨
          (1 ≤ (xbeedev_send_loop fuel xbs w buf).2.1.outSequence ∧
            (xbeedev_send_loop fuel xbs w buf).2.1.outSequence ≤ 255)) := by
  refine ⟨fun x => ⟨nextSeq_pos x, nextSeq_le x⟩, rfl, ?_, ?_, ?_, ?_⟩
  · intro x h
    unfold nextSeq
    rw [Nat.mod_eq_of_lt (by omega)]
    rw [if_neg (by omega)]
  · intro xbs o time packetType sequence appType data
    exact (sendPacket_session _ _ _ _ _ _ _).2.2.1
  · intro xbs o time buf waitForAck waitForSequence f
    exact (pollStep_session _ _ _ _ _ _ _).2
  · intro fuel
    induction fuel with
    | zero =>
      intro xbs w buf
      cases buf with
      | nil => exact Or.inl rfl
      | cons b bs => exact Or.inl rfl
    | succ n ih =>
      intro xbs w buf
      cases buf with
      | nil => exact Or.inl rfl
      | cons b bs =>
        simp only [xbeedev_send_loop]
        split
        · refine (ih _ _ _).elim (fun h => Or.inr ?_) (fun h => Or.inr h)
          rw [h, sendChunkRetries_outSequence, (stats_send_fields _ _ _ _).2.1]
          exact ⟨nextSeq_pos _, nextSeq_le _⟩
        · split
          · refine Or.inr ?_
            dsimp only []
            rw [sendChunkRetries_outSequence, (stats_send_fields _ _ _ _).2.1]
            exact ⟨nextSeq_pos _, nextSeq_le _⟩
          · refine Or.inr ?_
            dsimp only []
            rw [sendChunkRetries_outSequence, (stats_send_fields _ _ _ _).2.1]
            exact ⟨nextSeq_pos _, nextSeq_le _⟩

/-- Witness for `sequence_counters_skip_zero`: wrap at 255, increment at
41, allocation of `txSequence` by an ACK `sendPacket` on a fresh session. -/
theorem sequence_counters_skip_zero_witness :
    (1 ≤ nextSeq 255 ∧ nextSeq 255 ≤ 255) ∧
      nextSeq 41 = 42 ∧
      (sendPacket baseSession ⟨[], []⟩ ⟨0, 0⟩ 0 1 (-1) []).2.1.txSequence =
        nextSeq baseSession.txSequence :=
  ⟨sequence_counters_skip_zero.1 255,
   sequence_counters_skip_zero.2.2.1 41 (by decide),
   sequence_counters_skip_zero.2.2.2.1 baseSession ⟨[], []⟩ ⟨0, 0⟩ 0 1 (-1) []⟩

/-! ### Chunk-size bound (C3) -/

set_option maxRecDepth 40000 in
/-- Claim C3, counterexample: with a 26-hop source route the claimed bound
`chunk ≤ 54 − max(0, 2h+2)` fails.  The overhead `2*26+2 = 54` is not
below the 54-byte budget, so `xbeedev_send` leaves the chunk budget at 54:
sending 54 bytes on such a session emits a single 0x10 frame carrying all
54 data bytes, while the claimed bound is `54 − 54 = 0`. -/
theorem chunk_bound_fails_at_26_hops :
    hopSession.sourceRouteHops = 26 ∧
      (xbeedev_send hopSession { emptySerial with input := otaAck1 }
        (List.replicate 54 0x41)).1 = 0 ∧
      (xbeedev_send hopSession { emptySerial with input := otaAck1 }
          (List.replicate 54 0x41)).2.2.out.sent =
        [encodeFrame ([0x10, 1] ++ [0, 0, 0, 0, 0, 0, 0, 0, 0xff, 0xfe] ++ [0, 0]
          ++ [1, 1, 23] ++ List.replicate 54 0x41)] ∧
      ¬ ((54 : Int) ≤ 54 - max 0 (2 * 26 + 2)) := by
  refine ⟨rfl, ?_, ?_, by decide⟩ <;> decide

/-- Claim C3 (amended): the chunk computed by `xbeedev_send` satisfies
`chunk ≤ 54 − (2h + 2)` whenever the source route has `0 < h` hops and the
overhead `2h + 2` is below the 54-byte budget; otherwise (in particular
for `h ≥ 26`) the budget stays at 54 and the chunk is only bounded by it. -/
theorem chunk_bound (hops : Int) (buflen : Nat) :
    (0 < hops → 2 * hops + 2 < 54 →
      (blockLength buflen hops : Int) ≤ 54 - (2 * hops + 2)) ∧
      blockLength buflen hops ≤ 54 := by
  constructor
  · intro h1 h2
    unfold blockLength maximumChunk
    rw [if_pos ⟨h1, by omega⟩]
    have hmin : min buflen (54 - (hops * 2 + 2)).toNat ≤ (54 - (hops * 2 + 2)).toNat :=
      Nat.min_le_right _ _
    have htn : ((54 - (hops * 2 + 2)).toNat : Int) = 54 - (hops * 2 + 2) := by omega
    omega
  · unfold blockLength maximumChunk
    split
    · have := Nat.min_le_right buflen ((54 - (hops * 2 + 2)).toNat)
      omega
    · exact Nat.min_le_right _ _

/-- Witness for `chunk_bound` at 5 hops and a 100-byte request. -/
theorem chunk_bound_witness :
    (blockLength 100 5 : Int) ≤ 54 - (2 * 5 + 2) ∧ blockLength 100 5 ≤ 54 :=
  ⟨(chunk_bound 5 100).1 (by decide) (by decide), (chunk_bound 5 100).2⟩

/-! ### Reset-pin parsing and statistics (C8, C9, C10) -/

/-- Claim C8, counterexample: the extended parameter `xbeeresetpin=7` is
accepted by `xbee_parseextparms` (the code rejects only `n <= 0 || n > 7`),
contradicting the claim that parsing fails for `n = 7`.  Pin 7 is needed
by off-the-shelf shields that wire the reset line to XBee IO port 7. -/
theorem xbee_parseResetPin_accepts_7 : xbee_parseResetPin 7 = some 7 := by decide

/-- Claim C8 (amended): parsing the extended parameter `xbeeresetpin=<n>`
succeeds exactly for `n` in 1..7 and fails for every other value. -/
theorem xbee_parseResetPin_range (n : Int) :
    (xbee_parseResetPin n).isSome = true ↔ (1 ≤ n ∧ n ≤ 7) := by
  unfold xbee_parseResetPin
  split
  · rename_i h
    simp only [Option.isSome_none, Bool.false_eq_true, false_iff]
    rintro ⟨h1, h2⟩
    rcases h with h | h <;> omega
  · rename_i h
    simp only [Option.isSome_some, true_iff]
    constructor <;> omega

/-- Claim C9: `XBeeBootSessionInit` initialises the statistics of only the
first three groups (`for (group = 0; group < 3; group++)`): after
initialisation of a session whose memory held garbage (timestamps `(9,9)`,
summaries with 7 samples), groups 0..2 are reset but the RECEIVE group
(index 3) still holds the garbage summary and garbage timestamps; even in
groups 0..2 only `tv_sec` of each timestamp is zeroed. -/
theorem sessionInit_skips_group3 :
    ((XBeeBootSessionInit prestatsSession).groupSummary.getD 0 xbeeStatsReset).samples = 0 ∧
      ((XBeeBootSessionInit prestatsSession).groupSummary.getD 1 xbeeStatsReset).samples = 0 ∧
      ((XBeeBootSessionInit prestatsSession).groupSummary.getD 2 xbeeStatsReset).samples = 0 ∧
      (XBeeBootSessionInit prestatsSession).groupSummary.getD 3 xbeeStatsReset =
        { minimum := ⟨9, 9⟩, maximum := ⟨9, 9⟩, sum := ⟨9, 9⟩, samples := 7 } ∧
      (XBeeBootSessionInit prestatsSession).sequenceStatistics (3 * 256) = ⟨9, 9⟩ ∧
      (XBeeBootSessionInit prestatsSession).sequenceStatistics 0 = ⟨0, 9⟩ := by
  decide

/-- Claim C10: the summarisation performed at `xbee_close` can divide by a
zero sample count.  A direct-mode session that is opened and closed
without any matched response records no samples in groups 0..2, and
`xbeeStatsSummarise` then computes `sum.tv_sec / samples` with
`samples = 0` (undefined behaviour in the C source, modelled as `none`). -/
theorem xbee_close_divides_by_zero :
    ((XBeeBootSessionInit prestatsSession).groupSummary.getD 0 xbeeStatsReset).samples = 0 ∧
      xbee_close_summaries (XBeeBootSessionInit prestatsSession) =
        [none, none, none, some ⟨1, 285715⟩] := by
  decide

end XBeeBoot
